import Mathlib

/-!
Verification of the DataGovernance services against their specification.

Each Python service that the claims touch is shallowly embedded below:
pure functions become Lean functions over `List Char` / `ℚ` / association
lists, floating-point arithmetic is embedded as exact rational arithmetic
(the relevant comparisons were checked to agree), and the FastAPI layer is
dropped in favour of the underlying engine functions.
-/

namespace DataGov

set_option allowUnsafeReducibility true

attribute [local semireducible] Rat.add Rat.mul Rat.sub Rat.ofScientific Rat.inv

/-- Python's `round` (banker's rounding, round-half-to-even) on a rational,
to an integer. -/
def roundHalfEven (x : ℚ) : ℤ :=
  let n : ℤ := ⌊x⌋
  let r : ℚ := x - n
  if r < 1/2 then n
  else if 1/2 < r then n + 1
  else if n % 2 = 0 then n else n + 1

/-- Python's `round(x, nd)` on a rational. -/
def pyRound (x : ℚ) (nd : ℕ) : ℚ := (roundHalfEven (x * 10 ^ nd) : ℚ) / 10 ^ nd

/-- `dict.get(key, default)` over an association list. -/
def dictGet (tbl : List (String × ℚ)) (e : String) (dflt : ℚ) : ℚ :=
  match tbl.find? (fun p => p.1 == e) with
  | some p => p.2
  | none => dflt

theorem dictGet_eq_default_or_mem (tbl : List (String × ℚ)) (e : String) (dflt : ℚ) :
    dictGet tbl e dflt = dflt ∨ dictGet tbl e dflt ∈ tbl.map Prod.snd := by
  unfold dictGet
  cases h : tbl.find? (fun p => p.1 == e) with
  | none => exact Or.inl rfl
  | some p =>
    right
    exact List.mem_map_of_mem Prod.snd (List.mem_of_find?_eq_some h)

/-! ## Taxonomy Service: sensitivity calculator
(`services/taxonomie-serv/backend/sensitivity_calculator.py`) -/

namespace SensitivityCalculator

/-- Legal obligation scores `[0,1]` (`LEGAL_SCORES`). -/
def LEGAL_SCORES : List (String × ℚ) := [
  ("CIN_MAROC", 1.0), ("CNSS", 1.0), ("PASSPORT_MA", 1.0), ("CARTE_SEJOUR", 1.0),
  ("NUMERO_SECURITE_SOCIALE", 1.0),
  ("CARTE_RAMED", 1.0), ("NUMERO_AMO", 1.0), ("NUMERO_DOSSIER_MEDICAL", 1.0),
  ("CARTE_HANDICAP", 1.0), ("NUMERO_PATIENT", 1.0), ("NUMERO_MUTUELLE", 0.9),
  ("IBAN_MA", 0.9), ("RIB_MAROC", 0.9), ("CARTE_BANCAIRE", 1.0), ("CVV", 1.0),
  ("NUMERO_COMPTE_BANCAIRE", 0.9), ("SALAIRE", 0.8), ("SWIFT_CODE", 0.7),
  ("MONTANT_TRANSACTION", 0.4),
  ("PHONE_MA", 0.6), ("PHONE_FIXE_MA", 0.5), ("EMAIL", 0.6), ("EMAIL_PROFESSIONNEL", 0.5),
  ("ADRESSE_COMPLETE", 0.7), ("CODE_POSTAL_MA", 0.3), ("FAX_MA", 0.4),
  ("URL_PERSONNEL", 0.3), ("ADRESSE_IP", 0.5),
  ("MASSAR", 0.7), ("CNE", 0.7), ("DIPLOME_NUMERO", 0.5), ("NOTE_EXAMEN", 0.6),
  ("NUMERO_ETUDIANT", 0.6),
  ("MATRICULE_EMPLOYEE", 0.5), ("CONTRAT_TRAVAIL_ID", 0.6), ("NUMERO_BADGE", 0.3),
  ("ICE", 0.5), ("NUMERO_RC", 0.4), ("PATENTE", 0.4),
  ("PHOTO_HASH", 1.0), ("EMPREINTE_DIGITALE_ID", 1.0), ("NUMERO_DNA", 1.0),
  ("DATE_NAISSANCE", 0.7), ("IMMATRICULATION_VEHICULE", 0.4), ("PERMIS_CONDUIRE", 0.6),
  ("CARTE_ELECTORALE", 0.5), ("NUMERO_FACTURE", 0.2)]

/-- Privacy risk scores `[0,1]` (`RISK_SCORES`). -/
def RISK_SCORES : List (String × ℚ) := [
  ("CIN_MAROC", 0.95), ("CNSS", 0.95), ("PASSPORT_MA", 0.9), ("CARTE_BANCAIRE", 0.95),
  ("NUMERO_AMO", 0.9), ("NUMERO_SECURITE_SOCIALE", 0.95),
  ("IBAN_MA", 0.8), ("RIB_MAROC", 0.8), ("PHONE_MA", 0.7), ("EMAIL", 0.7),
  ("MASSAR", 0.75), ("CNE", 0.75), ("CARTE_RAMED", 0.8), ("NUMERO_DOSSIER_MEDICAL", 0.85),
  ("SALAIRE", 0.6), ("ADRESSE_COMPLETE", 0.65), ("PERMIS_CONDUIRE", 0.6),
  ("DATE_NAISSANCE", 0.5), ("NUMERO_MUTUELLE", 0.7), ("MATRICULE_EMPLOYEE", 0.5),
  ("CODE_POSTAL_MA", 0.3), ("IMMATRICULATION_VEHICULE", 0.4), ("NUMERO_FACTURE", 0.2),
  ("PHONE_FIXE_MA", 0.4), ("FAX_MA", 0.3), ("EMAIL_PROFESSIONNEL", 0.5),
  ("NUMERO_BADGE", 0.3),
  ("PHOTO_HASH", 1.0), ("EMPREINTE_DIGITALE_ID", 1.0), ("NUMERO_DNA", 1.0),
  ("ICE", 0.4), ("NUMERO_RC", 0.4), ("PATENTE", 0.4), ("CONTRAT_TRAVAIL_ID", 0.6),
  ("DIPLOME_NUMERO", 0.5), ("NOTE_EXAMEN", 0.5), ("NUMERO_ETUDIANT", 0.6),
  ("ADRESSE_IP", 0.6), ("URL_PERSONNEL", 0.4),
  ("CVV", 0.9), ("SWIFT_CODE", 0.5), ("NUMERO_COMPTE_BANCAIRE", 0.8),
  ("MONTANT_TRANSACTION", 0.3),
  ("CARTE_SEJOUR", 0.8), ("CARTE_ELECTORALE", 0.6), ("CARTE_HANDICAP", 0.9),
  ("NUMERO_PATIENT", 0.85)]

/-- Impact-if-leaked scores `[0,1]` (`IMPACT_SCORES`). -/
def IMPACT_SCORES : List (String × ℚ) := [
  ("CARTE_BANCAIRE", 1.0), ("CVV", 1.0), ("CIN_MAROC", 0.9), ("IBAN_MA", 0.95),
  ("RIB_MAROC", 0.95), ("NUMERO_COMPTE_BANCAIRE", 0.95),
  ("CARTE_HANDICAP", 0.95), ("NUMERO_DOSSIER_MEDICAL", 0.9), ("NUMERO_DNA", 1.0),
  ("EMPREINTE_DIGITALE_ID", 0.95), ("PHOTO_HASH", 0.85), ("CARTE_RAMED", 0.8),
  ("NUMERO_AMO", 0.85),
  ("CNSS", 0.85), ("SALAIRE", 0.8), ("PASSPORT_MA", 0.85),
  ("NUMERO_SECURITE_SOCIALE", 0.9), ("CARTE_SEJOUR", 0.8),
  ("PHONE_MA", 0.6), ("EMAIL", 0.5), ("ADRESSE_COMPLETE", 0.7), ("MASSAR", 0.6),
  ("CNE", 0.6), ("PERMIS_CONDUIRE", 0.5), ("DATE_NAISSANCE", 0.5),
  ("IMMATRICULATION_VEHICULE", 0.4), ("CODE_POSTAL_MA", 0.3), ("NUMERO_FACTURE", 0.2),
  ("PHONE_FIXE_MA", 0.4), ("FAX_MA", 0.3),
  ("MATRICULE_EMPLOYEE", 0.4), ("CONTRAT_TRAVAIL_ID", 0.6), ("NUMERO_BADGE", 0.2),
  ("ICE", 0.5), ("NUMERO_RC", 0.4), ("PATENTE", 0.4), ("EMAIL_PROFESSIONNEL", 0.4),
  ("DIPLOME_NUMERO", 0.5), ("NOTE_EXAMEN", 0.6), ("NUMERO_ETUDIANT", 0.5),
  ("ADRESSE_IP", 0.5), ("URL_PERSONNEL", 0.3),
  ("NUMERO_MUTUELLE", 0.75), ("NUMERO_PATIENT", 0.85), ("CARTE_ELECTORALE", 0.5),
  ("SWIFT_CODE", 0.6), ("MONTANT_TRANSACTION", 0.4)]

/-- Return value of `SensitivityCalculator.calculate`:
level, rounded score, and the `{legal, risk, impact}` breakdown. -/
structure SensitivityResult where
  level : String
  score : ℚ
  legal : ℚ
  risk : ℚ
  impact : ℚ
deriving DecidableEq, Repr

/-- The weighted total `S_total = 0.4·L + 0.3·R + 0.3·I`. -/
def sTotal (L R I : ℚ) : ℚ := 0.4 * L + 0.3 * R + 0.3 * I

/-- Body of `SensitivityCalculator.calculate` as a function of the three
component scores. -/
def calculateFrom (L R I : ℚ) : SensitivityResult :=
  let S_total := 0.4 * L + 0.3 * R + 0.3 * I
  let level :=
    if S_total ≥ 0.85 then "critical"
    else if S_total ≥ 0.6 then "high"
    else if S_total ≥ 0.3 then "medium"
    else "low"
  { level := level
    score := pyRound S_total 3
    legal := pyRound L 2
    risk := pyRound R 2
    impact := pyRound I 2 }

/-- `SensitivityCalculator.calculate`: look up the three component scores
(default 0.5) and apply the formula. -/
def calculate (entity_type : String) : SensitivityResult :=
  calculateFrom (dictGet LEGAL_SCORES entity_type 0.5)
    (dictGet RISK_SCORES entity_type 0.5)
    (dictGet IMPACT_SCORES entity_type 0.5)

theorem legal_bounds (e : String) :
    0 ≤ dictGet LEGAL_SCORES e 0.5 ∧ dictGet LEGAL_SCORES e 0.5 ≤ 1 := by
  rcases dictGet_eq_default_or_mem LEGAL_SCORES e 0.5 with h | h
  · rw [h]; norm_num
  · revert h
    have : ∀ q ∈ LEGAL_SCORES.map Prod.snd, 0 ≤ q ∧ q ≤ 1 := by decide
    exact this _

theorem risk_bounds (e : String) :
    0 ≤ dictGet RISK_SCORES e 0.5 ∧ dictGet RISK_SCORES e 0.5 ≤ 1 := by
  rcases dictGet_eq_default_or_mem RISK_SCORES e 0.5 with h | h
  · rw [h]; norm_num
  · revert h
    have : ∀ q ∈ RISK_SCORES.map Prod.snd, 0 ≤ q ∧ q ≤ 1 := by decide
    exact this _

theorem impact_bounds (e : String) :
    0 ≤ dictGet IMPACT_SCORES e 0.5 ∧ dictGet IMPACT_SCORES e 0.5 ≤ 1 := by
  rcases dictGet_eq_default_or_mem IMPACT_SCORES e 0.5 with h | h
  · rw [h]; norm_num
  · revert h
    have : ∀ q ∈ IMPACT_SCORES.map Prod.snd, 0 ≤ q ∧ q ≤ 1 := by decide
    exact this _

theorem calculateFrom_level_spec (L R I : ℚ) :
    ((calculateFrom L R I).level = "critical" ↔ 0.85 ≤ sTotal L R I) ∧
    ((calculateFrom L R I).level = "high" ↔ 0.6 ≤ sTotal L R I ∧ sTotal L R I < 0.85) ∧
    ((calculateFrom L R I).level = "medium" ↔ 0.3 ≤ sTotal L R I ∧ sTotal L R I < 0.6) ∧
    ((calculateFrom L R I).level = "low" ↔ sTotal L R I < 0.3) := by
  unfold calculateFrom sTotal
  dsimp only
  split_ifs with h1 h2 h3 <;>
    refine ⟨?_, ?_, ?_, ?_⟩ <;>
    simp_all <;>
    first
      | linarith
      | (constructor <;> linarith)
      | (intro h; linarith)
      | (intro h h'; linarith)

end SensitivityCalculator

/-! ## Character-level helper lemmas -/

theorem uint32_le_iff (a b : UInt32) : a ≤ b ↔ a.toNat ≤ b.toNat := Iff.rfl

theorem char_eq_iff_toNat (c d : Char) : c = d ↔ c.toNat = d.toNat := by
  constructor
  · intro h; rw [h]
  · intro h
    apply Char.eq_of_val_eq
    apply UInt32.eq_of_toBitVec_eq
    exact BitVec.eq_of_toNat_eq h

theorem isUpper_iff (c : Char) : c.isUpper = true ↔ 65 ≤ c.toNat ∧ c.toNat ≤ 90 := by
  simp [Char.isUpper, ge_iff_le, uint32_le_iff]
  exact Iff.rfl

theorem isLower_iff (c : Char) : c.isLower = true ↔ 97 ≤ c.toNat ∧ c.toNat ≤ 122 := by
  simp [Char.isLower, ge_iff_le, uint32_le_iff]
  exact Iff.rfl

theorem isDigit_iff (c : Char) : c.isDigit = true ↔ 48 ≤ c.toNat ∧ c.toNat ≤ 57 := by
  simp [Char.isDigit, ge_iff_le, uint32_le_iff]
  exact Iff.rfl

theorem isWhitespace_iff (c : Char) :
    c.isWhitespace = true ↔
      c.toNat = 32 ∨ c.toNat = 9 ∨ c.toNat = 13 ∨ c.toNat = 10 := by
  simp [Char.isWhitespace, char_eq_iff_toNat]
  omega

theorem toUpper_eq_self (c : Char) (h : c.toNat ≤ 96) : c.toUpper = c := by
  unfold Char.toUpper
  simp only []
  rw [if_neg]
  omega

/-! ## Taxonomy Service: regex engine
(`services/taxonomie-serv/main.py`)

A small backtracking regex engine covering exactly the constructs the
hard-coded Moroccan patterns use, with Python `re` semantics (leftmost
match, priority-ordered alternation, greedy bounded repetition,
`IGNORECASE` folded into the character classes). -/

namespace Taxonomie

/-- Regular-expression fragments used by the taxonomy patterns. -/
inductive Rx where
  | cls (p : Char → Bool)
  | seq (a b : Rx)
  | alt (a b : Rx)
  | rep (a : Rx) (lo hi : ℕ)
  | star (a : Rx)
  | wb
  | eps

/-- Python `\w` (ASCII part, which is all the analyzed texts use). -/
def isWordChar (c : Char) : Bool := c.isAlphanum || c == '_'

/-- Is `pos` a `\b` word boundary of `t`? -/
def isBoundary (t : List Char) (pos : ℕ) : Bool :=
  let before :=
    match pos with
    | 0 => false
    | p + 1 =>
      match t[p]? with
      | some c => isWordChar c
      | none => false
  let after :=
    match t[pos]? with
    | some c => isWordChar c
    | none => false
  before != after

/-- Greedy bounded repetition `{lo, hi}` of a matching step, in
continuation-passing style. -/
def repM (step : ℕ → (ℕ → Option ℕ) → Option ℕ) :
    ℕ → ℕ → ℕ → (ℕ → Option ℕ) → Option ℕ
  | lo, 0, pos, k => if lo = 0 then k pos else none
  | 0, hi + 1, pos, k =>
    (step pos (fun q => repM step 0 hi q k)) <|> k pos
  | lo + 1, hi + 1, pos, k =>
    step pos (fun q => repM step lo hi q k)

/-- Greedy unbounded repetition (`*`), fuelled; every starred fragment in
the taxonomy patterns consumes at least one character per iteration, so a
fuel of `|t| + 1` is exact. -/
def starM (step : ℕ → (ℕ → Option ℕ) → Option ℕ) :
    ℕ → ℕ → (ℕ → Option ℕ) → Option ℕ
  | 0, pos, k => k pos
  | f + 1, pos, k =>
    (step pos (fun q => starM step f q k)) <|> k pos

/-- Backtracking matcher: try `r` at `pos` of `t`, passing every candidate
end position to the continuation `k` in Python `re` priority order. -/
def mtch (t : List Char) : Rx → ℕ → (ℕ → Option ℕ) → Option ℕ
  | .cls p, pos, k =>
    match t[pos]? with
    | some c => if p c then k (pos + 1) else none
    | none => none
  | .seq a b, pos, k => mtch t a pos (fun q => mtch t b q k)
  | .alt a b, pos, k => (mtch t a pos k) <|> (mtch t b pos k)
  | .rep a lo hi, pos, k => repM (mtch t a) lo hi pos k
  | .star a, pos, k => starM (mtch t a) (t.length + 1) pos k
  | .wb, pos, k => if isBoundary t pos then k pos else none
  | .eps, pos, k => k pos

/-- Scan for non-overlapping leftmost matches from `pos` on. -/
def findFrom (t : List Char) (r : Rx) : ℕ → ℕ → List (ℕ × ℕ)
  | 0, _ => []
  | fuel + 1, pos =>
    if pos > t.length then []
    else
      match mtch t r pos some with
      | some e => (pos, e) :: findFrom t r fuel (max (pos + 1) e)
      | none => findFrom t r fuel (pos + 1)

/-- Python's `pattern.finditer(text)` as (start, end) offset pairs. -/
def finditer (t : List Char) (r : Rx) : List (ℕ × ℕ) :=
  findFrom t r (t.length + 1) 0

/-- Python's `text[a:b]`. -/
def slice (t : List Char) (a b : ℕ) : List Char := (t.take b).drop a

/-! Pattern combinators. The Moroccan patterns are compiled with
`re.IGNORECASE`, so letter literals/classes are encoded case-insensitively
(ASCII case folding, which covers the analyzed texts). -/

def seqL (l : List Rx) : Rx := l.foldr Rx.seq Rx.eps

/-- `\d`. -/
def cD : Rx := .cls Char.isDigit

/-- `[A-Z]` under `IGNORECASE`. -/
def cL : Rx := .cls Char.isAlpha

/-- A literal non-letter character. -/
def lit (c : Char) : Rx := .cls (fun x => x == c)

/-- A literal letter under `IGNORECASE` (`c` given lowercase). -/
def litIC (c : Char) : Rx := .cls (fun x => x.toLower == c)

def strLit (s : String) : Rx := seqL (s.toList.map lit)

def strIC (s : String) : Rx := seqL (s.toList.map litIC)

def opt (r : Rx) : Rx := .rep r 0 1

def plus (r : Rx) : Rx := .seq r (.star r)

/-- `\s`. -/
def cWS : Rx := .cls Char.isWhitespace

/-- `[A-Z0-9]` under `IGNORECASE`. -/
def cAlnum : Rx := .cls (fun c => c.isAlpha || c.isDigit)

/-- `[A-F0-9]` under `IGNORECASE`. -/
def cHex : Rx := .cls (fun c => c.isDigit || ('a' ≤ c.toLower && c.toLower ≤ 'f'))

/-- One entry of the `MOROCCAN_PATTERNS` / `ARABIC_PATTERNS` dictionaries. -/
structure PatternConfig where
  entity_type : String
  patterns : List Rx
  category : String
  sensitivity : String
  domain : String
  context_required : List String := []

/-- The hard-coded `MOROCCAN_PATTERNS` dictionary, in insertion order
(which is the order `analyze` iterates). -/
def MOROCCAN_PATTERNS : List PatternConfig := [
  { entity_type := "CIN_MAROC",
    patterns := [seqL [.wb, .rep cL 1 2, .rep cD 5 8, .wb]],
    category := "IDENTITE_PERSONNELLE", sensitivity := "critical", domain := "IDENTITE" },
  { entity_type := "CNSS",
    patterns := [seqL [.wb, .rep cD 9 12, .wb]],
    category := "PROFESSIONAL_INFO", sensitivity := "critical", domain := "PROFESSIONNEL",
    context_required := ["cnss", "sécurité sociale", "الضمان"] },
  { entity_type := "PHONE_MA",
    patterns := [
      seqL [.alt (strLit "+212") (.alt (strLit "00212") (lit '0')),
        .cls (fun c => '5' ≤ c && c ≤ '7'), .rep cD 8 8],
      seqL [strLit "+212", opt (.cls (fun c => c.isWhitespace || c == '.' || c == '-')),
        .cls (fun c => '5' ≤ c && c ≤ '7'),
        opt (.cls (fun c => c.isWhitespace || c == '.' || c == '-')), .rep cD 2 2,
        opt (.cls (fun c => c.isWhitespace || c == '.' || c == '-')), .rep cD 2 2,
        opt (.cls (fun c => c.isWhitespace || c == '.' || c == '-')), .rep cD 2 2,
        opt (.cls (fun c => c.isWhitespace || c == '.' || c == '-')), .rep cD 2 2]],
    category := "COORDONNEES", sensitivity := "high", domain := "CONTACT" },
  { entity_type := "IBAN_MA",
    patterns := [seqL [.wb, strIC "ma", .rep cD 2 2,
      .rep (.cls (fun c => c.isAlpha || c.isDigit || c.isWhitespace)) 20 26, .wb]],
    category := "DONNEES_FINANCIERES", sensitivity := "critical", domain := "FINANCIER" },
  { entity_type := "EMAIL",
    patterns := [seqL [
      plus (.cls (fun c => c.isAlpha || c.isDigit || c == '.' || c == '_' || c == '%'
        || c == '+' || c == '-')),
      lit '@',
      plus (.cls (fun c => c.isAlpha || c.isDigit || c == '.' || c == '-')),
      lit '.', cL, cL, .star cL]],
    category := "COORDONNEES", sensitivity := "high", domain := "CONTACT" },
  { entity_type := "MASSAR",
    patterns := [seqL [.wb, cL, .rep cD 9 9, .wb]],
    category := "IDENTITE_PERSONNELLE", sensitivity := "high", domain := "EDUCATION",
    context_required := ["massar", "élève", "scolaire"] },
  { entity_type := "PASSPORT_MA",
    patterns := [seqL [.wb, .rep cL 1 2, .rep cD 6 9, .wb]],
    category := "IDENTITE_PERSONNELLE", sensitivity := "critical", domain := "IDENTITE",
    context_required := ["passeport", "passport", "جواز"] },
  { entity_type := "DATE_NAISSANCE",
    patterns := [
      seqL [.alt (.seq (lit '0') (.cls (fun c => '1' ≤ c && c ≤ '9')))
          (.alt (.seq (.cls (fun c => c == '1' || c == '2')) cD)
            (.seq (lit '3') (.cls (fun c => c == '0' || c == '1')))),
        .cls (fun c => c == '-' || c == '/'),
        .alt (.seq (lit '0') (.cls (fun c => '1' ≤ c && c ≤ '9')))
          (.seq (lit '1') (.cls (fun c => '0' ≤ c && c ≤ '2'))),
        .cls (fun c => c == '-' || c == '/'),
        .alt (strLit "19") (strLit "20"), .rep cD 2 2],
      seqL [.alt (strLit "19") (strLit "20"), .rep cD 2 2,
        .cls (fun c => c == '-' || c == '/'),
        .alt (.seq (lit '0') (.cls (fun c => '1' ≤ c && c ≤ '9')))
          (.seq (lit '1') (.cls (fun c => '0' ≤ c && c ≤ '2'))),
        .cls (fun c => c == '-' || c == '/'),
        .alt (.seq (lit '0') (.cls (fun c => '1' ≤ c && c ≤ '9')))
          (.alt (.seq (.cls (fun c => c == '1' || c == '2')) cD)
            (.seq (lit '3') (.cls (fun c => c == '0' || c == '1'))))]],
    category := "IDENTITE_PERSONNELLE", sensitivity := "high", domain := "IDENTITE" },
  { entity_type := "IMMATRICULATION_VEHICULE",
    patterns := [seqL [.rep cD 1 6, opt (.cls (fun c => c.isWhitespace || c == '-')),
      .cls (fun c => c.isAlpha || (1571 ≤ c.toNat && c.toNat ≤ 1610)),
      opt (.cls (fun c => c.isWhitespace || c == '-')), .rep cD 1 4]],
    category := "DONNEES_VEHICULE", sensitivity := "medium", domain := "VEHICULE" },
  { entity_type := "CARTE_SEJOUR",
    patterns := [seqL [.wb, .rep cL 2 2, .rep cD 6 10, .wb]],
    category := "IDENTITE_PERSONNELLE", sensitivity := "critical", domain := "IMMIGRATION",
    context_required := ["séjour", "residence", "إقامة"] },
  { entity_type := "CARTE_RAMED",
    patterns := [seqL [.wb, strIC "ramed", .rep cD 10 10, .wb]],
    category := "IDENTITE_PERSONNELLE", sensitivity := "high", domain := "SANTE",
    context_required := ["ramed", "santé", "الصحة"] },
  { entity_type := "NUMERO_AMO",
    patterns := [seqL [.wb, .rep cD 13 13, .wb]],
    category := "IDENTITE_PERSONNELLE", sensitivity := "critical", domain := "SANTE",
    context_required := ["amo", "assurance", "التأمين"] },
  { entity_type := "PERMIS_CONDUIRE",
    patterns := [seqL [.wb, cL, .rep cD 7 7, .wb]],
    category := "IDENTITE_PERSONNELLE", sensitivity := "medium", domain := "IDENTITE",
    context_required := ["permis", "conduire", "رخصة"] },
  { entity_type := "NUMERO_DOSSIER_MEDICAL",
    patterns := [seqL [.wb, strIC "dm", .rep cD 8 8, .wb]],
    category := "DONNEES_SANTE", sensitivity := "critical", domain := "SANTE" },
  { entity_type := "CARTE_ELECTORALE",
    patterns := [seqL [.wb, strIC "ce", cL, .rep cD 7 7, .wb]],
    category := "IDENTITE_PERSONNELLE", sensitivity := "medium", domain := "POLITIQUE" },
  { entity_type := "NUMERO_MUTUELLE",
    patterns := [seqL [.wb, strIC "mut", .rep cD 8 12, .wb]],
    category := "DONNEES_SANTE", sensitivity := "high", domain := "SANTE" },
  { entity_type := "CARTE_HANDICAP",
    patterns := [seqL [.wb, strIC "ch", .rep cD 8 8, .wb]],
    category := "DONNEES_SANTE", sensitivity := "critical", domain := "SANTE",
    context_required := ["handicap", "invalidité"] },
  { entity_type := "NUMERO_PATIENT",
    patterns := [seqL [.wb, strIC "pat", .rep cD 8 10, .wb]],
    category := "DONNEES_SANTE", sensitivity := "critical", domain := "SANTE" },
  { entity_type := "CNE",
    patterns := [seqL [.wb, cL, .rep cD 9 9, .wb]],
    category := "IDENTITE_PERSONNELLE", sensitivity := "high", domain := "EDUCATION",
    context_required := ["cne", "étudiant", "طالب", "élève"] },
  { entity_type := "NUMERO_SECURITE_SOCIALE",
    patterns := [seqL [.wb, .cls (fun c => c == '1' || c == '2'), .rep cD 14 14, .wb]],
    category := "PROFESSIONAL_INFO", sensitivity := "critical", domain := "PROFESSIONNEL" },
  { entity_type := "RIB_MAROC",
    patterns := [seqL [.wb, .rep cD 24 24, .wb]],
    category := "DONNEES_FINANCIERES", sensitivity := "critical", domain := "FINANCIER",
    context_required := ["rib", "relevé", "bancaire"] },
  { entity_type := "SWIFT_CODE",
    patterns := [seqL [.wb, .rep cL 6 6, .rep cAlnum 2 2, opt (.rep cAlnum 3 3), .wb]],
    category := "DONNEES_FINANCIERES", sensitivity := "high", domain := "FINANCIER" },
  { entity_type := "CARTE_BANCAIRE",
    patterns := [seqL [.wb, .rep cD 4 4, opt (.cls (fun c => c == '-' || c.isWhitespace)),
      .rep cD 4 4, opt (.cls (fun c => c == '-' || c.isWhitespace)),
      .rep cD 4 4, opt (.cls (fun c => c == '-' || c.isWhitespace)), .rep cD 4 4, .wb]],
    category := "DONNEES_FINANCIERES", sensitivity := "critical", domain := "FINANCIER" },
  { entity_type := "CVV",
    patterns := [seqL [.wb, .rep cD 3 4, .wb]],
    category := "DONNEES_FINANCIERES", sensitivity := "critical", domain := "FINANCIER",
    context_required := ["cvv", "code", "sécurité"] },
  { entity_type := "NUMERO_FACTURE",
    patterns := [seqL [.wb, strIC "fac", .rep cD 8 8, .wb]],
    category := "DONNEES_FINANCIERES", sensitivity := "low", domain := "COMMERCIAL" },
  { entity_type := "SALAIRE",
    patterns := [seqL [plus cD, opt cWS,
      .alt (strIC "dh") (.alt (strIC "mad") (.seq (strIC "dirham") (opt (litIC 's'))))]],
    category := "DONNEES_FINANCIERES", sensitivity := "critical", domain := "PROFESSIONNEL",
    context_required := ["salaire", "rémunération", "الأجر", "paie"] },
  { entity_type := "NUMERO_COMPTE_BANCAIRE",
    patterns := [seqL [.wb, .rep cD 10 16, .wb]],
    category := "DONNEES_FINANCIERES", sensitivity := "critical", domain := "FINANCIER",
    context_required := ["compte", "bancaire", "account"] },
  { entity_type := "MONTANT_TRANSACTION",
    patterns := [seqL [.wb, plus cD, .cls (fun c => c == '.' || c == ','), .rep cD 2 2,
      opt cWS, .alt (strIC "dh") (strIC "mad"), .wb]],
    category := "DONNEES_FINANCIERES", sensitivity := "medium", domain := "FINANCIER" },
  { entity_type := "PHONE_FIXE_MA",
    patterns := [seqL [.wb, strLit "05", .rep cD 8 8, .wb]],
    category := "COORDONNEES", sensitivity := "medium", domain := "CONTACT" },
  { entity_type := "FAX_MA",
    patterns := [seqL [.wb, .alt (strIC "fax") (strIC "télécopie"),
      .star (.cls (fun c => c == ':' || c.isWhitespace)), strLit "05", .rep cD 8 8, .wb]],
    category := "COORDONNEES", sensitivity := "low", domain := "CONTACT" },
  { entity_type := "ADRESSE_COMPLETE",
    patterns := [seqL [.wb, plus cD, opt (lit ','), plus cWS,
      .alt (strIC "rue") (.alt (strIC "avenue")
        (.alt (strIC "boulevard") (.seq (strIC "av") (lit '.')))),
      plus cWS, plus (.cls (fun c => isWordChar c || c.isWhitespace)),
      lit ',', .star cWS, .rep cD 5 5]],
    category := "COORDONNEES", sensitivity := "high", domain := "CONTACT" },
  { entity_type := "CODE_POSTAL_MA",
    patterns := [seqL [.wb, .rep cD 5 5, .wb]],
    category := "COORDONNEES", sensitivity := "low", domain := "CONTACT",
    context_required := ["code postal", "cp", "ville"] },
  { entity_type := "ADRESSE_IP",
    patterns := [seqL [.wb, .rep (.seq (.rep cD 1 3) (lit '.')) 3 3, .rep cD 1 3, .wb]],
    category := "DONNEES_TECHNIQUES", sensitivity := "medium", domain := "INFORMATIQUE" },
  { entity_type := "URL_PERSONNEL",
    patterns := [seqL [strIC "http", opt (litIC 's'), strLit "://",
      plus (.cls (fun c => isWordChar c || c == '.' || c == '-')),
      lit '.', cL, cL, .star cL]],
    category := "COORDONNEES", sensitivity := "low", domain := "CONTACT" },
  { entity_type := "EMAIL_PROFESSIONNEL",
    patterns := [seqL [
      plus (.cls (fun c => c.isAlpha || c.isDigit || c == '.' || c == '_' || c == '%'
        || c == '+' || c == '-')),
      lit '@',
      .alt (strIC "entreprise") (.alt (strIC "company")
        (.alt (strIC "corp") (.alt (strIC "inc") (strIC "org")))),
      lit '.', .alt (strIC "ma") (strIC "com")]],
    category := "COORDONNEES", sensitivity := "medium", domain := "PROFESSIONNEL" },
  { entity_type := "MATRICULE_EMPLOYEE",
    patterns := [seqL [.wb, strIC "emp", .rep cL 2 2, .rep cD 6 6, .wb]],
    category := "PROFESSIONAL_INFO", sensitivity := "medium", domain := "PROFESSIONNEL" },
  { entity_type := "CONTRAT_TRAVAIL_ID",
    patterns := [seqL [.wb, strIC "ct", .rep cD 8 8, .wb]],
    category := "PROFESSIONAL_INFO", sensitivity := "high", domain := "PROFESSIONNEL" },
  { entity_type := "NUMERO_BADGE",
    patterns := [seqL [.wb, strIC "bdg", .rep cD 6 6, .wb]],
    category := "PROFESSIONAL_INFO", sensitivity := "low", domain := "PROFESSIONNEL" },
  { entity_type := "ICE",
    patterns := [seqL [.wb, .rep cD 15 15, .wb]],
    category := "PROFESSIONAL_INFO", sensitivity := "medium", domain := "PROFESSIONNEL",
    context_required := ["ice", "entreprise", "société"] },
  { entity_type := "NUMERO_RC",
    patterns := [seqL [.wb, strIC "rc", .rep cD 6 8, .wb]],
    category := "PROFESSIONAL_INFO", sensitivity := "medium", domain := "PROFESSIONNEL",
    context_required := ["rc", "registre", "commerce"] },
  { entity_type := "PATENTE",
    patterns := [seqL [.wb, strIC "pat", .rep cD 8 8, .wb]],
    category := "PROFESSIONAL_INFO", sensitivity := "medium", domain := "PROFESSIONNEL",
    context_required := ["patente", "taxe"] },
  { entity_type := "DIPLOME_NUMERO",
    patterns := [seqL [.wb, strIC "dip", .rep cD 8 8, .wb]],
    category := "DONNEES_EDUCATION", sensitivity := "medium", domain := "EDUCATION" },
  { entity_type := "NOTE_EXAMEN",
    patterns := [seqL [.wb, .rep cD 1 2, .cls (fun c => c == '.' || c == ','), .rep cD 2 2,
      .star cWS, lit '/', .star cWS, strLit "20", .wb]],
    category := "DONNEES_EDUCATION", sensitivity := "medium", domain := "EDUCATION" },
  { entity_type := "NUMERO_ETUDIANT",
    patterns := [seqL [.wb, strIC "etu", .rep cD 8 8, .wb]],
    category := "DONNEES_EDUCATION", sensitivity := "medium", domain := "EDUCATION" },
  { entity_type := "PHOTO_HASH",
    patterns := [seqL [.wb, strIC "ph", .rep cHex 64 64, .wb]],
    category := "DONNEES_BIOMETRIQUES", sensitivity := "critical", domain := "BIOMETRIQUE" },
  { entity_type := "EMPREINTE_DIGITALE_ID",
    patterns := [seqL [.wb, strIC "fp", .rep cHex 32 32, .wb]],
    category := "DONNEES_BIOMETRIQUES", sensitivity := "critical", domain := "BIOMETRIQUE" },
  { entity_type := "NUMERO_DNA",
    patterns := [seqL [.wb, strIC "dna", .rep cHex 16 16, .wb]],
    category := "DONNEES_BIOMETRIQUES", sensitivity := "critical", domain := "BIOMETRIQUE" }]

/-- The `ARABIC_PATTERNS` dictionary (compiled without `IGNORECASE`). -/
def ARABIC_PATTERNS : List PatternConfig := [
  { entity_type := "الرقم_الوطني",
    patterns := [seqL [strLit "رقم البطاقة", .star (.cls (fun c => c == ':' || c.isWhitespace)),
      .rep (.cls Char.isAlpha) 1 2, .rep cD 5 8]],
    category := "IDENTITE_PERSONNELLE", sensitivity := "critical", domain := "IDENTITE" },
  { entity_type := "رقم_الهاتف",
    patterns := [seqL [strLit "الهاتف", .star (.cls (fun c => c == ':' || c.isWhitespace)),
      .alt (strLit "+212") (.alt (strLit "00212") (lit '0')),
      .cls (fun c => '5' ≤ c && c ≤ '7'), .rep cD 8 8]],
    category := "COORDONNEES", sensitivity := "high", domain := "CONTACT" },
  { entity_type := "الحساب_البنكي",
    patterns := [seqL [.alt (strLit "IBAN") (strLit "الحساب البنكي"),
      .star (.cls (fun c => c == ':' || c.isWhitespace)), strLit "MA", .rep cD 2 2,
      .rep (.cls (fun c => (c.isAlpha && c.isUpper) || c.isDigit || c.isWhitespace)) 20 26]],
    category := "DONNEES_FINANCIERES", sensitivity := "critical", domain := "FINANCIER" }]

/-- One entry of the detection list `TaxonomyEngine.analyze` returns
(`stop` is the dictionary's `end` offset, `breakdown_*` the
`sensitivity_breakdown` dictionary). -/
structure Detection where
  entity_type : String
  category : String
  domain : String
  value : List Char
  start : ℕ
  stop : ℕ
  sensitivity_level : String
  sensitivity_score : ℚ
  breakdown_legal : ℚ
  breakdown_risk : ℚ
  breakdown_impact : ℚ
  confidence_score : ℚ
  detection_method : String
  context : List Char
deriving DecidableEq

def toLowerList (s : List Char) : List Char := s.map Char.toLower

/-- Does `pat` occur at the head of `s`? -/
def startsWith : List Char → List Char → Bool
  | [], _ => true
  | _ :: _, [] => false
  | a :: as, b :: bs => a == b && startsWith as bs

/-- Python's substring test `pat in s` on character lists. -/
def containsSub (pat : List Char) : List Char → Bool
  | [] => startsWith pat []
  | c :: rest => startsWith pat (c :: rest) || containsSub pat rest

/-- `TaxonomyEngine._get_context` (window of 30 characters, ellipses when
truncated). -/
def get_context (text : List Char) (start stop : ℕ) : List Char :=
  let size := 30
  let ctx_start := start - size
  let ctx_end := min text.length (stop + size)
  let context := slice text ctx_start ctx_end
  let context := if ctx_start > 0 then "...".toList ++ context else context
  if ctx_end < text.length then context ++ "...".toList else context

/-- `TaxonomyEngine._check_context`: some keyword occurs (lowercased) in the
window from 50 characters before the match to 50 after it. -/
def check_context (text : List Char) (start stop : ℕ) (keywords : List String) : Bool :=
  if keywords.isEmpty then true
  else
    let ctx := toLowerList (slice text (start - 50) (min text.length (stop + 50)))
    keywords.any (fun kw => containsSub (toLowerList kw.toList) ctx)

/-- The Moroccan-pattern loop of `TaxonomyEngine.analyze`: every regex match
of every pattern, gated by `_check_context` when `context_required` is
non-empty, with sensitivity from the Cahier formula. -/
def moroccanDetections (text : List Char) : List Detection :=
  MOROCCAN_PATTERNS.flatMap (fun cfg =>
    cfg.patterns.flatMap (fun rx =>
      (finditer text rx).filterMap (fun se =>
        if cfg.context_required ≠ [] ∧
            check_context text se.1 se.2 cfg.context_required = false then
          none
        else
          let sens := SensitivityCalculator.calculate cfg.entity_type
          some { entity_type := cfg.entity_type
                 category := cfg.category
                 domain := cfg.domain
                 value := slice text se.1 se.2
                 start := se.1
                 stop := se.2
                 sensitivity_level := sens.level
                 sensitivity_score := sens.score
                 breakdown_legal := sens.legal
                 breakdown_risk := sens.risk
                 breakdown_impact := sens.impact
                 confidence_score := 0.9
                 detection_method := "regex"
                 context := get_context text se.1 se.2 })))

/-- Does the text contain a character of the Arabic block U+0600–U+06FF? -/
def hasArabicChar (text : List Char) : Bool :=
  text.any (fun c => 1536 ≤ c.toNat && c.toNat ≤ 1791)

/-- The Arabic-pattern loop of `TaxonomyEngine.analyze` (no context gating,
confidence 0.85). -/
def arabicDetections (text : List Char) : List Detection :=
  ARABIC_PATTERNS.flatMap (fun cfg =>
    cfg.patterns.flatMap (fun rx =>
      (finditer text rx).map (fun se =>
        let sens := SensitivityCalculator.calculate cfg.entity_type
        { entity_type := cfg.entity_type
          category := cfg.category
          domain := cfg.domain
          value := slice text se.1 se.2
          start := se.1
          stop := se.2
          sensitivity_level := sens.level
          sensitivity_score := sens.score
          breakdown_legal := sens.legal
          breakdown_risk := sens.risk
          breakdown_impact := sens.impact
          confidence_score := 0.85
          detection_method := "regex_arabic"
          context := get_context text se.1 se.2 })))

/-- The position-based duplicate removal at the end of `analyze`: keep the
first detection for each `(start, end)` pair. -/
def dedupByPos : List Detection → List (ℕ × ℕ) → List Detection
  | [], _ => []
  | d :: rest, seen =>
    if (d.start, d.stop) ∈ seen then dedupByPos rest seen
    else d :: dedupByPos rest ((d.start, d.stop) :: seen)

/-- Insert a detection after all detections with a `start` that is not
greater, so that repeated insertion is stable. -/
def insertByStart (d : Detection) : List Detection → List Detection
  | [] => [d]
  | e :: rest => if e.start ≤ d.start then e :: insertByStart d rest else d :: e :: rest

/-- Python's stable `sorted(detections, key=lambda x: x["start"])`. -/
def sortByStart (l : List Detection) : List Detection :=
  l.foldl (fun acc d => insertByStart d acc) []

/-- `TaxonomyEngine.analyze`. The file-based custom taxonomy contributes
nothing: the repository has no `backend/taxonomie/domains` directory, so
`_load_from_files` leaves `taxonomy["categories"]` empty. -/
def analyze (text : List Char) (confidence_threshold : ℚ)
    (domains : Option (List String)) : List Detection :=
  if text.isEmpty || text.all Char.isWhitespace then []
  else
    let dets := moroccanDetections text
      ++ (if hasArabicChar text then arabicDetections text else [])
    let dets := dets.filter (fun d => confidence_threshold ≤ d.confidence_score)
    let dets :=
      match domains with
      | some doms =>
        if doms.isEmpty then dets
        else dets.filter (fun d =>
          doms.any (fun dom => containsSub (toLowerList dom.toList) (toLowerList d.domain.toList)))
      | none => dets
    sortByStart (dedupByPos dets [])

end Taxonomie

/-! ## Ranger integration: local access-decision simulator
(`ranger_integration/access_check.py`) -/

namespace RangerIntegration

/-- Return value of `check_access_decision`; the deny branch returns no
`mask` key, embedded as `none`. -/
structure AccessDecision where
  allow : Bool
  mask : Option String
deriving DecidableEq

/-- `check_access_decision(user_role, tags)`. -/
def check_access_decision (user_role : String) (tags : List String) : AccessDecision :=
  if "CRITICAL" ∈ tags ∧ user_role ≠ "admin" then
    { allow := false, mask := none }
  else if "SPI" ∈ tags ∧ user_role ∉ ["admin", "data_steward"] then
    { allow := true, mask := some "HASH" }
  else if "PII" ∈ tags then
    { allow := true, mask := some "MASK" }
  else
    { allow := true, mask := none }

end RangerIntegration

/-! ## IBAN generation and validation
(`tests/generate_valid_iban.py` and
`services/presidio-serv/backend/recognizers/iban_ma_recognizer.py`) -/

namespace Iban

/-- The decimal digit character for `n % 10`. -/
def digitChar (n : ℕ) : Char := Char.ofNat (48 + n % 10)

/-- Characters of Python's `str(ord(c) - ord('A') + 10)` for `c` in `A`–`Z`
(the value is 10–35, hence exactly two decimal digits). -/
def letterDigits (c : Char) : List Char :=
  [digitChar ((c.toNat - 65 + 10) / 10), digitChar (c.toNat - 65 + 10)]

/-- `conv` inside `generate_iban`: alphabetic characters become their
two-digit value, and everything else is kept. -/
def convGen (c : Char) : List Char := if c.isAlpha then letterDigits c else [c]

/-- The per-character conversion inside `iban_validator`: digits are kept,
and everything else becomes its letter value. -/
def convVal (c : Char) : List Char := if c.isDigit then [c] else letterDigits c

/-- Python's `int` on a string of decimal digit characters. -/
def strToNat (s : List Char) : ℕ := s.foldl (fun acc c => 10 * acc + (c.toNat - 48)) 0

/-- Python's `f"{n:02d}"` for `n ≤ 99`. -/
def twoDigits (n : ℕ) : List Char := [digitChar (n / 10), digitChar n]

/-- `generate_iban(base_str)` (`tests/generate_valid_iban.py`). -/
def generate_iban (base_str : List Char) : List Char :=
  let rib_digits := base_str.flatMap convGen
  let rearranged_digits := rib_digits ++ "221000".toList
  let remainder := strToNat rearranged_digits % 97
  let check := 98 - remainder
  'M' :: 'A' :: (twoDigits check ++ base_str)

/-- `re.sub(r"\s+", "", text).upper()`. -/
def cleanText (s : List Char) : List Char :=
  (s.filter (fun c => !c.isWhitespace)).map Char.toUpper

/-- `iban_validator(text)` from the Moroccan IBAN recognizer (the exception
branch of `int` is unreachable on cleaned digit/letter texts, which is the
domain the claims exercise). -/
def iban_validator (text : List Char) : Bool :=
  let clean := cleanText text
  if clean.take 2 ≠ ['M', 'A'] ∨ clean.length < 24 then false
  else
    let rearranged := clean.drop 4 ++ clean.take 4
    let digits := rearranged.flatMap convVal
    strToNat digits % 97 == 1

/-- Replace the character at position `i` by the next digit mod 10. -/
def bumpDigitAt (s : List Char) (i : ℕ) : List Char :=
  s.set i (digitChar ((s.getD i '0').toNat - 48 + 1))

theorem strToNat_aux (ys : List Char) (a : ℕ) :
    ys.foldl (fun acc c => 10 * acc + (c.toNat - 48)) a
      = a * 10 ^ ys.length
        + ys.foldl (fun acc c => 10 * acc + (c.toNat - 48)) 0 := by
  induction ys generalizing a with
  | nil => simp
  | cons c ys ih =>
    simp only [List.foldl_cons, List.length_cons]
    rw [ih (10 * a + (c.toNat - 48)), ih (10 * 0 + (c.toNat - 48))]
    ring

theorem strToNat_append (xs ys : List Char) :
    strToNat (xs ++ ys) = strToNat xs * 10 ^ ys.length + strToNat ys := by
  unfold strToNat
  rw [List.foldl_append]
  exact strToNat_aux ys _

theorem digitChar_toNat (k : ℕ) : (digitChar k).toNat = 48 + k % 10 := by
  unfold digitChar
  have hb : k % 10 < 10 := Nat.mod_lt _ (by omega)
  generalize hg : k % 10 = m at *
  interval_cases m <;> decide

theorem digitChar_isDigit (k : ℕ) :
    48 ≤ (digitChar k).toNat ∧ (digitChar k).toNat ≤ 57 := by
  rw [digitChar_toNat]; omega

theorem strToNat_two (x y : Char) :
    strToNat [x, y] = 10 * (x.toNat - 48) + (y.toNat - 48) := by
  unfold strToNat
  simp [List.foldl_cons]

/-- Every character that the generated IBAN contains is clean: not
whitespace, fixed by `toUpper`. -/
theorem clean_char (c : Char) (h : 48 ≤ c.toNat ∧ c.toNat ≤ 90) :
    (¬ c.isWhitespace = true) ∧ c.toUpper = c := by
  constructor
  · intro hw
    rw [isWhitespace_iff] at hw
    omega
  · exact toUpper_eq_self c (by omega)

theorem cleanText_eq_self (s : List Char)
    (h : ∀ c ∈ s, 48 ≤ c.toNat ∧ c.toNat ≤ 90) : cleanText s = s := by
  unfold cleanText
  rw [List.filter_eq_self.mpr, List.map_congr_left, List.map_id]
  · intro c hc
    exact (clean_char c (h c hc)).2
  · intro c hc
    simp only [Bool.not_eq_true']
    cases hw : c.isWhitespace with
    | false => rfl
    | true => exact absurd hw (clean_char c (h c hc)).1

theorem convVal_eq_convGen (b : List Char)
    (h : ∀ c ∈ b, (c.isUpper = true) ∨ (c.isDigit = true)) :
    b.flatMap convVal = b.flatMap convGen := by
  induction b with
  | nil => rfl
  | cons c b ih =>
    have hc := h c (by simp)
    have hrest : b.flatMap convVal = b.flatMap convGen :=
      ih (fun d hd => h d (by simp [hd]))
    simp only [List.flatMap_cons, hrest]
    congr 1
    unfold convVal convGen Char.isAlpha
    rcases hc with hu | hd
    · have hd' : c.isDigit = false := by
        cases ht : c.isDigit with
        | false => rfl
        | true =>
          rw [isDigit_iff] at ht
          rw [isUpper_iff] at hu
          omega
      rw [hd', hu]
      simp
    · rw [hd]
      have hu' : c.isUpper = false := by
        cases ht : c.isUpper with
        | false => rfl
        | true =>
          rw [isUpper_iff] at ht
          rw [isDigit_iff] at hd
          omega
      have hl' : c.isLower = false := by
        cases ht : c.isLower with
        | false => rfl
        | true =>
          rw [isLower_iff] at ht
          rw [isDigit_iff] at hd
          omega
      rw [hu', hl']
      simp

/-- Numeric value of the digits the validator extracts from the generated
suffix `['M', 'A', x, y]` when `x`, `y` are digit characters. -/
theorem strToNat_MA_suffix (x y : Char)
    (hx : 48 ≤ x.toNat ∧ x.toNat ≤ 57) (hy : 48 ≤ y.toNat ∧ y.toNat ≤ 57) :
    strToNat (['M', 'A', x, y].flatMap convVal)
      = 221000 + (10 * (x.toNat - 48) + (y.toNat - 48)) := by
  have hxd : x.isDigit = true := by rw [isDigit_iff]; omega
  have hyd : y.isDigit = true := by rw [isDigit_iff]; omega
  have hM : convVal 'M' = ['2', '2'] := by decide
  have hA : convVal 'A' = ['1', '0'] := by decide
  have hxv : convVal x = [x] := by unfold convVal; rw [hxd]; simp
  have hyv : convVal y = [y] := by unfold convVal; rw [hyd]; simp
  simp only [List.flatMap_cons, List.flatMap_nil, hM, hA, hxv, hyv]
  unfold strToNat
  simp only [List.append_nil, List.cons_append, List.nil_append, List.foldl_cons,
    List.foldl_nil]
  have h2 : ('2' : Char).toNat = 50 := by decide
  have h1 : ('1' : Char).toNat = 49 := by decide
  have h0 : ('0' : Char).toNat = 48 := by decide
  rw [h2, h1, h0]
  omega

/-- Shared computation of `iban_validator` on `'M' :: 'A' :: x :: y :: b`
with digit characters `x`, `y` and a 24-character uppercase/digit base. -/
theorem iban_validator_MA (x y : Char) (b : List Char)
    (hx : 48 ≤ x.toNat ∧ x.toNat ≤ 57) (hy : 48 ≤ y.toNat ∧ y.toNat ≤ 57)
    (hb : ∀ c ∈ b, (c.isUpper = true) ∨ (c.isDigit = true))
    (hlen : b.length = 24) :
    iban_validator ('M' :: 'A' :: x :: y :: b)
      = (((strToNat (b.flatMap convGen)) * 10 ^ 6
            + (221000 + (10 * (x.toNat - 48) + (y.toNat - 48)))) % 97 == 1) := by
  have hbn : ∀ c ∈ b, 48 ≤ c.toNat ∧ c.toNat ≤ 90 := by
    intro c hc
    rcases hb c hc with hu | hd
    · rw [isUpper_iff] at hu; omega
    · rw [isDigit_iff] at hd; omega
  have hclean : cleanText ('M' :: 'A' :: x :: y :: b) = 'M' :: 'A' :: x :: y :: b := by
    apply cleanText_eq_self
    intro c hc
    simp only [List.mem_cons] at hc
    rcases hc with rfl | rfl | rfl | rfl | hc
    · decide
    · decide
    · exact ⟨hx.1, by omega⟩
    · exact ⟨hy.1, by omega⟩
    · exact hbn c hc
  unfold iban_validator
  rw [hclean]
  have htake : ('M' :: 'A' :: x :: y :: b).take 2 = ['M', 'A'] := by
    simp [List.take]
  have hlen4 : ('M' :: 'A' :: x :: y :: b).length = 28 := by
    simp [hlen]
  rw [if_neg]
  · have hdrop : ('M' :: 'A' :: x :: y :: b).drop 4 = b := by
      simp [List.drop]
    have htake4 : ('M' :: 'A' :: x :: y :: b).take 4 = ['M', 'A', x, y] := by
      simp [List.take]
    rw [hdrop, htake4]
    dsimp only
    rw [List.flatMap_append, strToNat_append, convVal_eq_convGen b hb,
      strToNat_MA_suffix x y hx hy]
    have hdlen : (['M', 'A', x, y].flatMap convVal).length = 6 := by
      have hxd : x.isDigit = true := by rw [isDigit_iff]; omega
      have hyd : y.isDigit = true := by rw [isDigit_iff]; omega
      simp [List.flatMap_cons, convVal, hxd, hyd]
      decide
    rw [hdlen]
  · rw [htake, hlen4]
    simp

theorem string_221000 :
    strToNat ("221000".toList) = 221000 ∧ ("221000".toList).length = 6 := by
  constructor <;> decide

theorem mod97_accept (V t u : ℕ) (ht : t ≤ 9) (hu : u ≤ 9)
    (htu : 10 * t + u = 98 - (V * 1000000 + 221000) % 97) :
    (V * 1000000 + (221000 + (10 * t + u))) % 97 = 1 := by
  obtain ⟨W, hW⟩ : ∃ W, V * 1000000 + 221000 = W := ⟨_, rfl⟩
  rw [hW] at htu
  have hsum : V * 1000000 + (221000 + (10 * t + u)) = W + (10 * t + u) := by omega
  rw [hsum]
  clear hW hsum
  omega

theorem mod97_reject_tens (V t u : ℕ) (ht : t ≤ 9) (hu : u ≤ 9)
    (htu : 10 * t + u = 98 - (V * 1000000 + 221000) % 97) :
    (V * 1000000 + (221000 + (10 * ((t + 1) % 10) + u))) % 97 ≠ 1 := by
  obtain ⟨W, hW⟩ : ∃ W, V * 1000000 + 221000 = W := ⟨_, rfl⟩
  rw [hW] at htu
  have hsum : V * 1000000 + (221000 + (10 * ((t + 1) % 10) + u))
      = W + (10 * ((t + 1) % 10) + u) := by omega
  rw [hsum]
  clear hW hsum
  omega

theorem mod97_reject_units (V t u : ℕ) (ht : t ≤ 9) (hu : u ≤ 9)
    (htu : 10 * t + u = 98 - (V * 1000000 + 221000) % 97) :
    (V * 1000000 + (221000 + (10 * t + (u + 1) % 10))) % 97 ≠ 1 := by
  obtain ⟨W, hW⟩ : ∃ W, V * 1000000 + 221000 = W := ⟨_, rfl⟩
  rw [hW] at htu
  have hsum : V * 1000000 + (221000 + (10 * t + (u + 1) % 10))
      = W + (10 * t + (u + 1) % 10) := by omega
  rw [hsum]
  clear hW hsum
  omega

end Iban

/-! ## Cleaning Service
(`services/cleaning-serv/backend/cleaning_engine.py`)

Dataframes are embedded as lists of rows of numeric cells, `none` standing
for pandas `NaN`; that is the fragment the duplicate/missing/outlier steps
compute with (`missing_rate` metrics, which do not affect the returned
frame, are omitted). -/

namespace Cleaning

abbrev Cell := Option ℚ

abbrev Row := List Cell

abbrev DataFrame := List Row

/-- `df.drop_duplicates()`: keep the first occurrence of each row (pandas
treats `NaN` as equal to `NaN` when comparing rows). -/
def dedupRows : DataFrame → List Row → DataFrame
  | [], _ => []
  | r :: rest, seen =>
    if r ∈ seen then dedupRows rest seen else r :: dedupRows rest (r :: seen)

def remove_duplicates (df : DataFrame) : DataFrame := dedupRows df []

/-- Number of columns (rows are rectangular). -/
def ncols (df : DataFrame) : ℕ := (df.head?.getD []).length

/-- The non-null values of column `j`. -/
def colVals (df : DataFrame) (j : ℕ) : List ℚ :=
  (df.map (fun r => r.getD j none)).filterMap id

def insertQ (x : ℚ) : List ℚ → List ℚ
  | [] => [x]
  | y :: rest => if x ≤ y then x :: y :: rest else y :: insertQ x rest

def sortQ (l : List ℚ) : List ℚ := l.foldr insertQ []

/-- `Series.quantile(p)` with pandas' linear interpolation, ignoring
nulls; `none` when the column has no non-null value. -/
def quantile (vals : List ℚ) (p : ℚ) : Option ℚ :=
  let sorted := sortQ vals
  if sorted.length = 0 then none
  else
    let h : ℚ := ((sorted.length - 1 : ℕ) : ℚ) * p
    let lo := (⌊h⌋).toNat
    let x0 := sorted.getD lo 0
    let x1 := sorted.getD (lo + 1) x0
    some (x0 + (h - (lo : ℚ)) * (x1 - x0))

/-- `Series.mean()` ignoring nulls (`none` when the column is all null,
in which case `fillna(NaN)` leaves the column unchanged). -/
def colMean (df : DataFrame) (j : ℕ) : Option ℚ :=
  let vals := colVals df j
  if vals.length = 0 then none else some (vals.sum / (vals.length : ℚ))

/-- Replace null cells of column `j` by `m`. -/
def fillColWith (df : DataFrame) (j : ℕ) (m : ℚ) : DataFrame :=
  df.map (fun r => r.mapIdx (fun i c =>
    if i = j then
      match c with
      | none => some m
      | some x => some x
    else c))

def fillColMean (df : DataFrame) (j : ℕ) : DataFrame :=
  match colMean df j with
  | none => df
  | some m => fillColWith df j m

def fillColMedian (df : DataFrame) (j : ℕ) : DataFrame :=
  match quantile (colVals df j) 0.5 with
  | none => df
  | some m => fillColWith df j m

/-- `handle_missing_values(df, strategy)`. Every column of the embedded
frames is numeric, so the non-numeric `mode` branch never fires. -/
def handle_missing_values (df : DataFrame) (strategy : String) : DataFrame :=
  if strategy = "drop" then df.filter (fun r => ¬ r.contains none)
  else
    let strategy := if strategy ∉ ["mean", "median", "mode"] then "mean" else strategy
    (List.range (ncols df)).foldl (fun acc j =>
      if strategy = "mean" then fillColMean acc j
      else if strategy = "median" then fillColMedian acc j
      else acc) df

/-- One pass of the IQR filter for column `j`: bounds computed on the
current (already narrowed) frame; a null cell, or a column with no
non-null value (pandas `NaN` bounds), fails the comparison and the row is
dropped. -/
def filterOutliersCol (df : DataFrame) (j : ℕ) : DataFrame :=
  match quantile (colVals df j) 0.25, quantile (colVals df j) 0.75 with
  | some q1, some q3 =>
    let iqr := q3 - q1
    let lower := q1 - 1.5 * iqr
    let upper := q3 + 1.5 * iqr
    df.filter (fun r =>
      match r.getD j none with
      | some v => lower ≤ v ∧ v ≤ upper
      | none => false)
  | _, _ => df.filter (fun _ => false)

/-- `remove_outliers_iqr(df)`: sequential per-column narrowing. -/
def remove_outliers_iqr (df : DataFrame) : DataFrame :=
  (List.range (ncols df)).foldl filterOutliersCol df

/-- The `config` dictionary of `clean_dataframe` (defaults as in the
source). -/
structure CleaningConfig where
  remove_duplicates : Bool := true
  handle_missing : String := "mean"
  remove_outliers : Bool := true

/-- `clean_dataframe(df, config)`, returning the cleaned frame (the
metrics dictionary only reports counts and rates). -/
def clean_dataframe (df : DataFrame) (config : CleaningConfig) : DataFrame :=
  let df := if config.remove_duplicates then remove_duplicates df else df
  let df := handle_missing_values df config.handle_missing
  let df := if config.remove_outliers then remove_outliers_iqr df else df
  df

/-- The auto-clean configuration named by the claim. -/
def autoConfig : CleaningConfig :=
  { remove_duplicates := true, handle_missing := "mean", remove_outliers := true }

theorem dedupRows_length_le (df : DataFrame) : ∀ seen, (dedupRows df seen).length ≤ df.length := by
  induction df with
  | nil => intro seen; simp [dedupRows]
  | cons r rest ih =>
    intro seen
    unfold dedupRows
    split
    · exact le_trans (ih seen) (Nat.le_succ _)
    · simpa using Nat.succ_le_succ (ih (r :: seen))

theorem fillColWith_length (df : DataFrame) (j : ℕ) (m : ℚ) :
    (fillColWith df j m).length = df.length := by
  simp [fillColWith]

theorem fillColMean_length (df : DataFrame) (j : ℕ) :
    (fillColMean df j).length = df.length := by
  unfold fillColMean
  split
  · rfl
  · exact fillColWith_length df j _

theorem fillColMedian_length (df : DataFrame) (j : ℕ) :
    (fillColMedian df j).length = df.length := by
  unfold fillColMedian
  split
  · rfl
  · exact fillColWith_length df j _

theorem handle_missing_length_le (df : DataFrame) (strategy : String) :
    (handle_missing_values df strategy).length ≤ df.length := by
  unfold handle_missing_values
  split
  · exact List.length_filter_le _ _
  · refine le_of_eq ?_
    generalize (if strategy ∉ ["mean", "median", "mode"] then "mean" else strategy) = s
    generalize List.range (ncols df) = l
    induction l generalizing df with
    | nil => rfl
    | cons j rest ih =>
      simp only [List.foldl_cons]
      rw [ih]
      split
      · exact fillColMean_length df j
      · split
        · exact fillColMedian_length df j
        · rfl

theorem filterOutliersCol_length_le (df : DataFrame) (j : ℕ) :
    (filterOutliersCol df j).length ≤ df.length := by
  unfold filterOutliersCol
  split
  · exact List.length_filter_le _ _
  · exact List.length_filter_le _ _

theorem remove_outliers_length_le (df : DataFrame) :
    (remove_outliers_iqr df).length ≤ df.length := by
  unfold remove_outliers_iqr
  generalize List.range (ncols df) = l
  induction l generalizing df with
  | nil => exact le_rfl
  | cons j rest ih =>
    simp only [List.foldl_cons]
    exact le_trans (ih (filterOutliersCol df j)) (filterOutliersCol_length_le df j)

theorem clean_dataframe_length_le (df : DataFrame) (config : CleaningConfig) :
    (clean_dataframe df config).length ≤ df.length := by
  unfold clean_dataframe
  dsimp only
  have h1 : ∀ d : DataFrame,
      (if config.remove_duplicates then remove_duplicates d else d).length ≤ d.length := by
    intro d
    split
    · exact dedupRows_length_le d []
    · exact le_rfl
  have h3 : ∀ d : DataFrame,
      (if config.remove_outliers then remove_outliers_iqr d else d).length ≤ d.length := by
    intro d
    split
    · exact remove_outliers_length_le d
    · exact le_rfl
  exact le_trans (h3 _) (le_trans (handle_missing_length_le _ _) (h1 _))

end Cleaning

/-! ## PII Analysis Service: Moroccan base recognizer
(`services/presidio-serv/backend/recognizers/moroccan_base_recognizer.py`)

`super().analyze` comes from the external Presidio library, which returns
one candidate result per regex match carrying the compiled pattern's
declared base score; it is abstracted here as the `results` argument. -/

namespace Presidio

open Taxonomie (slice toLowerList containsSub)

/-- A Presidio `RecognizerResult` restricted to the fields the weighted
scoring touches (`stop` is the result's `end` offset). -/
structure RecogResult where
  start : ℕ
  stop : ℕ
  score : ℚ
deriving DecidableEq

/-- The state of a `MoroccanPatternRecognizer`. -/
structure Recognizer where
  supported_entity : String
  manual_context : Option (List String)
  validator : Option (List Char → Bool)

/-- `MoroccanPatternRecognizer._check_context_proximity`: a context word
occurs (lowercased) within 100 characters of the match. -/
def check_context_proximity (rec : Recognizer) (text : List Char)
    (start stop : ℕ) : Bool :=
  match rec.manual_context with
  | none => false
  | some ctx =>
    if ctx.isEmpty then false
    else
      let window_size := 100
      let context_window :=
        toLowerList (slice text (start - window_size) (min text.length (stop + window_size)))
      ctx.any (fun word => containsSub (toLowerList word.toList) context_window)

/-- `MoroccanPatternRecognizer.analyze` (Algorithm 3, weighted scoring). -/
def analyze (rec : Recognizer) (text : List Char) (entities : List String)
    (results : List RecogResult) : List RecogResult :=
  if results.isEmpty = true ∨ rec.supported_entity ∉ entities then results
  else
    results.map (fun result =>
      let score_pattern := result.score
      let has_context := check_context_proximity rec text result.start result.stop
      let score_context : ℚ := if has_context then 1.0 else 0.0
      let score_validation : ℚ :=
        match rec.validator with
        | none => 1.0
        | some v => if v (slice text result.start result.stop) then 1.0 else 0.0
      let score_final := 0.5 * score_pattern + 0.3 * score_context + 0.2 * score_validation
      { result with score := pyRound score_final 3 })

end Presidio

/-! ## EthiMask Service
(`services/ethimask-serv/main.py`)

The Mongo-persisted paths are inactive without a database (`db is None`),
which is the configuration the claims describe: the policy table is
`DEFAULT_POLICIES` and the perceptron keeps its default weights. Values in
the data record are embedded as string-or-null (`Option String`); the
stateful masking primitives (pseudonym cache + randomness, hashlib) enter
as an oracle parameter, and `perceptron.decide_masking` enters `mask_data`
as a function parameter so that the embedding stays executable — the
sigmoid perceptron itself is defined below over `ℝ`. -/

namespace EthiMask

/-- `UserRole` (the `.value` strings are the wire format). -/
inductive UserRole where
  | admin
  | steward
  | annotator
  | labeler
  | analyst
  | external
deriving DecidableEq

def UserRole.value : UserRole → String
  | .admin => "admin"
  | .steward => "steward"
  | .annotator => "annotator"
  | .labeler => "labeler"
  | .analyst => "analyst"
  | .external => "external"

/-- `MaskingLevel` (`nomask` is the enum's `"none"`, `partial_` its
`"partial"`). -/
inductive MaskingLevel where
  | nomask
  | partial_
  | full
  | encrypted
deriving DecidableEq

def MaskingLevel.value : MaskingLevel → String
  | .nomask => "none"
  | .partial_ => "partial"
  | .full => "full"
  | .encrypted => "encrypted"

inductive MaskingTechnique where
  | pseudonymization
  | generalization
  | suppression
  | perturbation
  | tokenization
  | hashing
  | encryption
deriving DecidableEq

def MaskingTechnique.value : MaskingTechnique → String
  | .pseudonymization => "pseudonymization"
  | .generalization => "generalization"
  | .suppression => "suppression"
  | .perturbation => "perturbation"
  | .tokenization => "tokenization"
  | .hashing => "hashing"
  | .encryption => "encryption"

def strLower (s : String) : String := String.mk (Taxonomie.toLowerList s.toList)

def strUpper (s : String) : String := String.mk (s.toList.map Char.toUpper)

/-- `sensitivity_encoding` with default 0.5 (the caller lowercases). -/
def sensitivity_encoding (s : String) : ℚ :=
  dictGet [("low", 0.2), ("medium", 0.5), ("high", 0.8), ("critical", 1.0)] (strLower s) 0.5

/-- `role_encoding` (every enum member is in the dictionary). -/
def role_encoding : UserRole → ℚ
  | .admin => 0.0
  | .steward => 0.3
  | .analyst => 0.5
  | .annotator => 0.6
  | .labeler => 0.8
  | .external => 1.0

def context_encoding (s : String) : ℚ :=
  dictGet [("internal", 0.2), ("analysis", 0.3), ("display", 0.5), ("export", 0.7),
    ("api", 0.6), ("external", 0.9), ("default", 0.5)] (strLower s) 0.5

def purpose_encoding (s : String) : ℚ :=
  dictGet [("internal_research", 0.2), ("compliance", 0.3), ("research", 0.4),
    ("general", 0.5), ("marketing", 0.7), ("third_party", 0.9)] (strLower s) 0.5

/-- `np.dot(features, weights) + bias` with the default weights
`[0.35, -0.30, 0.20, 0.15]` and bias `0.4`. -/
def scoreOf (sensitivity : String) (role : UserRole) (context purpose : String) : ℚ :=
  0.35 * sensitivity_encoding sensitivity + (-0.30) * role_encoding role
    + 0.20 * context_encoding context + 0.15 * purpose_encoding purpose + 0.4

/-- The probability-threshold chain of `decide_masking`. -/
noncomputable def levelOf (prob : ℝ) : MaskingLevel :=
  if prob < 0.25 then .nomask
  else if prob < 0.50 then .partial_
  else if prob < 0.75 then .full
  else .encrypted

/-- `MaskingPerceptron.decide_masking` with the default weights:
`prob = 1 / (1 + exp(-score·5))`, bucketed by `levelOf`, with confidence
`min(1, |score|)`. -/
noncomputable def decide_masking (sensitivity : String) (role : UserRole)
    (context : String) (purpose : String) : MaskingLevel × ℚ :=
  let score := scoreOf sensitivity role context purpose
  let prob : ℝ := 1 / (1 + Real.exp (-(score : ℝ) * 5))
  let confidence := min 1 |score|
  (levelOf prob, confidence)

/-- The deterministic pieces of `ContextualMasker` that the claims touch;
random/stateful/hashing primitives are supplied by the caller. -/
structure MaskerOracle where
  pseudonymize : String → String → String
  perturb : String → String
  md5hex : String → String
  sha256hex : String → String

/-- `ContextualMasker._generalize`. -/
def generalizeVal (entity_type : String) : String :=
  if entity_type = "age" then "30-49"
  else if entity_type = "salary" then "10K-20K MAD"
  else "[" ++ strUpper entity_type ++ "_GEN]"

/-- `ContextualMasker._select_technique`. -/
def select_technique (level : MaskingLevel) : MaskingTechnique :=
  if level = .partial_ then .pseudonymization
  else if level = .full then .suppression
  else if level = .encrypted then .hashing
  else .pseudonymization

/-- `ContextualMasker.mask`: `(masked value, technique-used string)`. With
an enum technique every branch is covered, so the trailing
`_partial_mask` return is unreachable. -/
def mask (oracle : MaskerOracle) (value : Option String) (entity_type : String)
    (level : MaskingLevel) (technique : Option MaskingTechnique) :
    Option String × String :=
  if value = none ∨ level = .nomask then (value, "none")
  else
    let str_value := value.getD ""
    let technique := technique.getD (select_technique level)
    match technique with
    | .pseudonymization => (some (oracle.pseudonymize str_value entity_type), "pseudonymization")
    | .generalization => (some (generalizeVal entity_type), "generalization")
    | .suppression => (some ("[" ++ strUpper entity_type ++ "]"), "suppression")
    | .perturbation => (some (oracle.perturb str_value), "perturbation")
    | .tokenization => (some ("TKN_" ++ ((oracle.md5hex str_value).take 12)), "tokenization")
    | .hashing => (some ((oracle.sha256hex str_value).take 32), "hashing")
    | .encryption => (some ("ENC_" ++ ((oracle.sha256hex str_value).take 24)), "encryption")

structure MaskingPolicy where
  entity_type : String
  role : String
  level : MaskingLevel
  technique : MaskingTechnique
deriving DecidableEq

/-- `PolicyManager.DEFAULT_POLICIES`. -/
def DEFAULT_POLICIES : List MaskingPolicy := [
  ⟨"*", "admin", .nomask, .pseudonymization⟩,
  ⟨"cin", "steward", .partial_, .pseudonymization⟩,
  ⟨"*", "labeler", .full, .suppression⟩,
  ⟨"*", "external", .encrypted, .hashing⟩]

/-- `PolicyManager.get_policy` on the database-less path: first default
entry matching exactly or by wildcard, else the constructed
full/suppression fallback — a policy is always returned. -/
def get_policy (policies : List MaskingPolicy) (entity_type role : String) : MaskingPolicy :=
  match policies.find? (fun p =>
      (p.entity_type == entity_type || p.entity_type == "*") && p.role == role) with
  | some p => p
  | none => ⟨entity_type, role, .full, .suppression⟩

/-- A detection in a `/mask` request (only the fields `mask_data` reads). -/
structure EDetection where
  field : String
  entity_type : String
  sensitivity_level : String
deriving DecidableEq

structure MaskingConfig where
  role : UserRole
  context : String
  purpose : String
deriving DecidableEq

/-- One audit-log entry (the wall-clock timestamp is omitted). -/
structure AuditEntry where
  field : String
  entity_type : String
  sensitivity : String
  masking_level : String
  technique : String
  role : String
deriving DecidableEq

abbrev DataRecord := List (String × Option String)

def hasKey (data : DataRecord) (k : String) : Bool := data.any (fun p => p.1 == k)

def lookupKey (data : DataRecord) (k : String) : Option (Option String) :=
  (data.find? (fun p => p.1 == k)).map Prod.snd

def setKey (data : DataRecord) (k : String) (v : Option String) : DataRecord :=
  data.map (fun p => if p.1 == k then (p.1, v) else p)

/-- Python dict assignment `d[k] = v`. -/
def dictSet (d : List (String × String)) (k v : String) : List (String × String) :=
  if d.any (fun p => p.1 == k) then d.map (fun p => if p.1 == k then (p.1, v) else p)
  else d ++ [(k, v)]

structure MaskResponse where
  masked_data : DataRecord
  techniques_used : List (String × String)
  audit_log : List AuditEntry
deriving DecidableEq

/-- One iteration of the detection loop in `mask_data`. The perceptron
decision is computed and then — since `get_policy` always returns a policy
on this path — unconditionally overridden by the policy's level and
technique. -/
def maskStep (oracle : MaskerOracle)
    (decideFn : String → UserRole → String → String → MaskingLevel × ℚ)
    (config : MaskingConfig) (st : MaskResponse) (detection : EDetection) :
    MaskResponse :=
  if hasKey st.masked_data detection.field = false then st
  else
    let _decision := decideFn detection.sensitivity_level config.role config.context config.purpose
    let policy := get_policy DEFAULT_POLICIES detection.entity_type config.role.value
    let level := policy.level
    let technique := some policy.technique
    let current := (lookupKey st.masked_data detection.field).getD none
    let masked := mask oracle current detection.entity_type level technique
    { masked_data := setKey st.masked_data detection.field masked.1
      techniques_used := dictSet st.techniques_used detection.field masked.2
      audit_log := st.audit_log ++ [{
        field := detection.field
        entity_type := detection.entity_type
        sensitivity := detection.sensitivity_level
        masking_level := level.value
        technique := masked.2
        role := config.role.value }] }

/-- The `/mask` handler `mask_data` (database-less path). -/
def mask_data (oracle : MaskerOracle)
    (decideFn : String → UserRole → String → String → MaskingLevel × ℚ)
    (data : DataRecord) (detections : List EDetection) (config : MaskingConfig) :
    MaskResponse :=
  detections.foldl (maskStep oracle decideFn config)
    { masked_data := data, techniques_used := [], audit_log := [] }

end EthiMask

namespace Claims

open SensitivityCalculator

/-- C1: For every entity type `e`, `SensitivityCalculator.calculate` returns
`score = round(0.4·L + 0.3·R + 0.3·I, 3)` with `L`, `R`, `I` the entries of the
legal/risk/impact tables (0.5 when absent); the unrounded total lies in `[0,1]`;
the level is exactly `critical` for total ≥ 0.85, `high` for ≥ 0.60, `medium`
for ≥ 0.30 and `low` otherwise; the breakdown components are rounded to 2
decimals; and `L = 1.0, R = 0.95, I = 1.0` yields score `0.985`, level
`critical`. -/
theorem C1_sensitivity_formula :
    (∀ e : String,
      0 ≤ sTotal (dictGet LEGAL_SCORES e 0.5) (dictGet RISK_SCORES e 0.5)
          (dictGet IMPACT_SCORES e 0.5) ∧
      sTotal (dictGet LEGAL_SCORES e 0.5) (dictGet RISK_SCORES e 0.5)
          (dictGet IMPACT_SCORES e 0.5) ≤ 1 ∧
      calculate e = calculateFrom (dictGet LEGAL_SCORES e 0.5)
          (dictGet RISK_SCORES e 0.5) (dictGet IMPACT_SCORES e 0.5)) ∧
    (∀ L R I : ℚ,
      (calculateFrom L R I).score = pyRound (sTotal L R I) 3 ∧
      (calculateFrom L R I).legal = pyRound L 2 ∧
      (calculateFrom L R I).risk = pyRound R 2 ∧
      (calculateFrom L R I).impact = pyRound I 2 ∧
      ((calculateFrom L R I).level = "critical" ↔ 0.85 ≤ sTotal L R I) ∧
      ((calculateFrom L R I).level = "high" ↔
        0.6 ≤ sTotal L R I ∧ sTotal L R I < 0.85) ∧
      ((calculateFrom L R I).level = "medium" ↔
        0.3 ≤ sTotal L R I ∧ sTotal L R I < 0.6) ∧
      ((calculateFrom L R I).level = "low" ↔ sTotal L R I < 0.3)) ∧
    calculateFrom 1.0 0.95 1.0 =
      { level := "critical", score := 0.985, legal := 1.0, risk := 0.95, impact := 1.0 } := by
  refine ⟨fun e => ?_, fun L R I => ?_, by decide⟩
  · obtain ⟨hL0, hL1⟩ := legal_bounds e
    obtain ⟨hR0, hR1⟩ := risk_bounds e
    obtain ⟨hI0, hI1⟩ := impact_bounds e
    refine ⟨?_, ?_, rfl⟩ <;> unfold sTotal <;> linarith
  · obtain ⟨hc, hh, hm, hl⟩ := calculateFrom_level_spec L R I
    exact ⟨rfl, rfl, rfl, rfl, hc, hh, hm, hl⟩

open Iban in
/-- C3: for every 24-character uppercase-alphanumeric base string `b`,
`generate_iban b` is `"MA"` followed by a two-digit check value followed by
`b`; the IBAN validator accepts it (MOD-97 remainder 1); and bumping either
check digit (positions 2 and 3) to the next digit mod 10 makes the
validator reject. -/
theorem C3_iban_roundtrip (b : List Char)
    (hlen : b.length = 24)
    (halnum : ∀ c ∈ b, c.isUpper = true ∨ c.isDigit = true) :
    generate_iban b
      = 'M' :: 'A' ::
        (twoDigits (98 - strToNat (b.flatMap convGen ++ "221000".toList) % 97) ++ b) ∧
    iban_validator (generate_iban b) = true ∧
    iban_validator (bumpDigitAt (generate_iban b) 2) = false ∧
    iban_validator (bumpDigitAt (generate_iban b) 3) = false := by
  have hshape : generate_iban b
      = 'M' :: 'A' ::
        (twoDigits (98 - strToNat (b.flatMap convGen ++ "221000".toList) % 97) ++ b) := rfl
  obtain ⟨V, hV⟩ : ∃ V, strToNat (b.flatMap convGen) = V := ⟨_, rfl⟩
  have hN : strToNat (b.flatMap convGen ++ "221000".toList) = V * 1000000 + 221000 := by
    rw [strToNat_append, string_221000.1, string_221000.2, hV]
    norm_num
  obtain ⟨r, hr⟩ : ∃ r, (V * 1000000 + 221000) % 97 = r := ⟨_, rfl⟩
  have hrlt : r < 97 := by omega
  obtain ⟨chk, hchk⟩ : ∃ c, 98 - r = c := ⟨_, rfl⟩
  have hchkle : chk ≤ 98 := by omega
  obtain ⟨t, u, ht, hu, hteq, hueq⟩ :
      ∃ t u, t ≤ 9 ∧ u ≤ 9 ∧ chk / 10 % 10 = t ∧ chk % 10 = u :=
    ⟨_, _, by omega, by omega, rfl, rfl⟩
  have h10 : 10 * t + u = chk := by omega
  have htu : 10 * t + u = 98 - (V * 1000000 + 221000) % 97 := by
    rw [hr, h10]
    omega
  have hx := digitChar_isDigit (chk / 10)
  have hy := digitChar_isDigit chk
  have hxv : (digitChar (chk / 10)).toNat = 48 + t := by
    rw [digitChar_toNat, hteq]
  have hyv : (digitChar chk).toNat = 48 + u := by
    rw [digitChar_toNat, hueq]
  have hgen : generate_iban b = 'M' :: 'A' :: digitChar (chk / 10) :: digitChar chk :: b := by
    rw [hshape, hN, hr, hchk]
    rfl
  have hpow : (10 : ℕ) ^ 6 = 1000000 := by norm_num
  clear hteq hueq h10 hchk hchkle hr hrlt
  refine ⟨hshape, ?_, ?_, ?_⟩
  · rw [hgen, iban_validator_MA _ _ b hx hy halnum hlen, hxv, hyv, hV, hpow]
    simp only [Nat.add_sub_cancel_left]
    rw [mod97_accept V t u ht hu htu]
    rfl
  · have hbump : bumpDigitAt (generate_iban b) 2
        = 'M' :: 'A' :: digitChar (48 + t - 48 + 1) :: digitChar chk :: b := by
      rw [hgen]
      unfold bumpDigitAt
      simp [List.set, List.getD, hxv]
    rw [hbump, iban_validator_MA _ _ b (digitChar_isDigit _) hy halnum hlen,
      digitChar_toNat, hyv, hV, hpow]
    simp only [Nat.add_sub_cancel_left, beq_eq_false_iff_ne, ne_eq]
    exact mod97_reject_tens V t u ht hu htu
  · have hbump : bumpDigitAt (generate_iban b) 3
        = 'M' :: 'A' :: digitChar (chk / 10) :: digitChar (48 + u - 48 + 1) :: b := by
      rw [hgen]
      unfold bumpDigitAt
      simp [List.set, List.getD, hyv]
    rw [hbump, iban_validator_MA _ _ b hx (digitChar_isDigit _) halnum hlen,
      hxv, digitChar_toNat, hV, hpow]
    simp only [Nat.add_sub_cancel_left, beq_eq_false_iff_ne, ne_eq]
    exact mod97_reject_units V t u ht hu htu

open Iban in
/-- Witness for C3 at the concrete numeric base used by the repository's own
test script. -/
theorem C3_iban_roundtrip_witness :
    ("123456789012345678901234".toList.length = 24 ∧
      ∀ c ∈ "123456789012345678901234".toList, c.isUpper = true ∨ c.isDigit = true) ∧
    iban_validator (generate_iban ("123456789012345678901234".toList)) = true :=
  ⟨⟨by decide, by decide⟩,
    (C3_iban_roundtrip ("123456789012345678901234".toList) (by decide) (by decide)).2.1⟩

/-- C9 counterexample: the claim says `check_access_decision("data_steward",
["SPI"])` allows with mask `HASH`; the code exempts `data_steward` from the
SPI branch, so it allows with no mask. -/
theorem C9_counterexample :
    RangerIntegration.check_access_decision "data_steward" ["SPI"] =
      { allow := true, mask := none } ∧
    ({ allow := true, mask := none } : RangerIntegration.AccessDecision) ≠
      { allow := true, mask := some "HASH" } := by
  refine ⟨by decide, by decide⟩

/-- C9 (amended): the simulator denies `("external", ["CRITICAL"])`, allows
`("data_steward", ["SPI"])` with no mask (the `data_steward` role is exempt
from the SPI HASH branch), allows `("labeler", ["PII"])` with mask `MASK`,
and allows `("admin", [])` with no mask. -/
theorem C9_access_decision_cases :
    RangerIntegration.check_access_decision "external" ["CRITICAL"] =
      { allow := false, mask := none } ∧
    RangerIntegration.check_access_decision "data_steward" ["SPI"] =
      { allow := true, mask := none } ∧
    RangerIntegration.check_access_decision "labeler" ["PII"] =
      { allow := true, mask := some "MASK" } ∧
    RangerIntegration.check_access_decision "admin" [] =
      { allow := true, mask := none } := by
  refine ⟨?_, ?_, ?_, ?_⟩ <;> decide

open Taxonomie in
/-- Membership in the Moroccan-pattern loop output decomposes into a
producing configuration, pattern and match that passed the context gate. -/
theorem mem_moroccanDetections {text : List Char} {d : Detection}
    (hd : d ∈ moroccanDetections text) :
    ∃ cfg ∈ MOROCCAN_PATTERNS, ∃ rx ∈ cfg.patterns, ∃ se ∈ finditer text rx,
      ¬ (cfg.context_required ≠ [] ∧
          check_context text se.1 se.2 cfg.context_required = false) ∧
      d = (let sens := SensitivityCalculator.calculate cfg.entity_type
        { entity_type := cfg.entity_type
          category := cfg.category
          domain := cfg.domain
          value := slice text se.1 se.2
          start := se.1
          stop := se.2
          sensitivity_level := sens.level
          sensitivity_score := sens.score
          breakdown_legal := sens.legal
          breakdown_risk := sens.risk
          breakdown_impact := sens.impact
          confidence_score := 0.9
          detection_method := "regex"
          context := get_context text se.1 se.2 }) := by
  unfold moroccanDetections at hd
  simp only [List.mem_flatMap, List.mem_filterMap] at hd
  obtain ⟨cfg, hcfg, rx, hrx, se, hse, hgate⟩ := hd
  refine ⟨cfg, hcfg, rx, hrx, se, hse, ?_⟩
  split at hgate
  · exact absurd hgate (by simp)
  · rename_i hcond
    simp only [Option.some.injEq] at hgate
    exact ⟨hcond, hgate.symm⟩

open Taxonomie in
/-- The entity-type names of the Moroccan patterns are pairwise distinct. -/
theorem moroccan_names_nodup :
    (MOROCCAN_PATTERNS.map (fun cfg => cfg.entity_type)).Nodup := by decide

open Taxonomie in
/-- C4: `"123456789012"` alone yields zero CNSS detections;
`"My CNSS number is 123456789012"` yields a CNSS detection with
sensitivity level `critical`; and in general a match of a pattern with a
non-empty `context_required` list only becomes a detection when
`_check_context` finds a keyword in the ±50-character window. -/
theorem C4_context_gating :
    ((analyze "123456789012".toList 0.5 none).filter
      (fun d => d.entity_type == "CNSS")).length = 0 ∧
    ((analyze "My CNSS number is 123456789012".toList 0.5 none).any
      (fun d => d.entity_type == "CNSS" && d.sensitivity_level == "critical")) = true ∧
    ∀ (text : List Char) (cfg : PatternConfig) (d : Detection),
      cfg ∈ MOROCCAN_PATTERNS → d ∈ moroccanDetections text →
      d.entity_type = cfg.entity_type → cfg.context_required ≠ [] →
      check_context text d.start d.stop cfg.context_required = true := by
  refine ⟨by decide, by decide, ?_⟩
  intro text cfg d hcfg hd hname hctx
  obtain ⟨cfg2, hcfg2, rx, hrx, se, hse, hpass, hdef⟩ := mem_moroccanDetections hd
  have hetype : d.entity_type = cfg2.entity_type := by rw [hdef]
  have hceq : cfg = cfg2 :=
    List.inj_on_of_nodup_map moroccan_names_nodup hcfg hcfg2 (hname.symm.trans hetype)
  subst hceq
  have hstart : d.start = se.1 := by rw [hdef]
  have hstop : d.stop = se.2 := by rw [hdef]
  rw [hstart, hstop]
  rcases hpass2 : check_context text se.1 se.2 cfg.context_required with _ | _
  · exact absurd ⟨hctx, hpass2⟩ hpass
  · rfl

set_option maxHeartbeats 2000000 in
open Taxonomie in
/-- Witness for the universally quantified part of C4, at the CNSS
configuration and the CNSS detection of
`"My CNSS number is 123456789012"`. -/
theorem C4_context_gating_witness :
    ({ entity_type := "CNSS", category := "PROFESSIONAL_INFO", domain := "PROFESSIONNEL",
       value := "123456789012".toList, start := 18, stop := 30,
       sensitivity_level := "critical", sensitivity_score := 0.94,
       breakdown_legal := 1.0, breakdown_risk := 0.95, breakdown_impact := 0.85,
       confidence_score := 0.9, detection_method := "regex",
       context := "My CNSS number is 123456789012".toList } : Detection) ∈
        moroccanDetections "My CNSS number is 123456789012".toList ∧
    check_context "My CNSS number is 123456789012".toList 18 30
      (MOROCCAN_PATTERNS.get ⟨1, by decide⟩).context_required = true :=
  ⟨by decide,
    C4_context_gating.2.2 "My CNSS number is 123456789012".toList
      (MOROCCAN_PATTERNS.get ⟨1, by decide⟩)
      ({ entity_type := "CNSS", category := "PROFESSIONAL_INFO", domain := "PROFESSIONNEL",
         value := "123456789012".toList, start := 18, stop := 30,
         sensitivity_level := "critical", sensitivity_score := 0.94,
         breakdown_legal := 1.0, breakdown_risk := 0.95, breakdown_impact := 0.85,
         confidence_score := 0.9, detection_method := "regex",
         context := "My CNSS number is 123456789012".toList } : Detection)
      (MOROCCAN_PATTERNS.get_mem 1 (by decide)) (by decide) (by decide) (by decide)⟩

open Taxonomie in
/-- C5 counterexample: the unique detection of `"My CIN is AB123456"` has
zero-based offsets (10, 18), not (11, 19) as the claim states. -/
theorem C5_counterexample :
    ((analyze "My CIN is AB123456".toList 0.5 none).map (fun d => (d.start, d.stop)))
      = [(10, 18)] ∧ ((10, 18) : ℕ × ℕ) ≠ (11, 19) :=
  ⟨by decide, by decide⟩

open Taxonomie in
/-- C5 (amended): analyzing `"My CIN is AB123456"` with the default
threshold returns exactly one detection, a CIN_MAROC hit with value
`"AB123456"`, start offset 10 and end offset 18 (0-indexed). -/
theorem C5_cin_detection :
    analyze "My CIN is AB123456".toList 0.5 none =
      [{ entity_type := "CIN_MAROC", category := "IDENTITE_PERSONNELLE", domain := "IDENTITE",
         value := "AB123456".toList, start := 10, stop := 18,
         sensitivity_level := "critical", sensitivity_score := 0.955,
         breakdown_legal := 1.0, breakdown_risk := 0.95, breakdown_impact := 0.9,
         confidence_score := 0.9, detection_method := "regex",
         context := "My CIN is AB123456".toList }] := by decide

open Presidio Taxonomie in
/-- The recognizer's proximity check holds exactly when some context word
occurs (case-insensitively) in the 100-character window around the match. -/
theorem check_context_proximity_iff (rec : Presidio.Recognizer) (text : List Char)
    (s e : ℕ) :
    Presidio.check_context_proximity rec text s e = true ↔
      ∃ w ∈ rec.manual_context.getD [],
        containsSub (toLowerList w.toList)
          (toLowerList (slice text (s - 100) (min text.length (e + 100)))) = true := by
  unfold Presidio.check_context_proximity
  cases hctx : rec.manual_context with
  | none => simp
  | some ctx =>
    cases ctx with
    | nil => simp
    | cons c cs =>
      simp [List.any_eq_true]

theorem ctxScore_one_iff (b : Bool) :
    ((if b then (1 : ℚ) else 0) = 1 ∨ (if b then (1 : ℚ) else 0) = 0) ∧
    ((if b then (1 : ℚ) else 0) = 1 ↔ b = true) := by
  cases b <;> norm_num

theorem valScore_one_iff (o : Option (List Char → Bool)) (m : List Char) :
    ((match o with
      | none => (1 : ℚ)
      | some v => if v m then 1 else 0) = 1 ∨
     (match o with
      | none => (1 : ℚ)
      | some v => if v m then 1 else 0) = 0) ∧
    ((match o with
      | none => (1 : ℚ)
      | some v => if v m then 1 else 0) = 1 ↔
      (o = none ∨ ∃ v, o = some v ∧ v m = true)) := by
  cases o with
  | none => simp
  | some v =>
    cases hval : v m <;> simp [hval] <;> norm_num

open Presidio Taxonomie in
/-- C2: every result returned by a Moroccan recognizer (when its entity is
requested) carries score `round(0.5·p + 0.3·c + 0.2·v, 3)` where `p` is the
candidate's pattern score, `c` is 1 exactly when a context word occurs
case-insensitively within 100 characters of the match, and `v` is 1 exactly
when there is no validator or the validator accepts the matched text. -/
theorem C2_weighted_scoring (rec : Presidio.Recognizer) (text : List Char)
    (entities : List String) (results : List Presidio.RecogResult)
    (hent : rec.supported_entity ∈ entities) (r : Presidio.RecogResult)
    (hr : r ∈ Presidio.analyze rec text entities results) :
    ∃ r0 ∈ results, r.start = r0.start ∧ r.stop = r0.stop ∧
      ∃ sc sv : ℚ,
        (sc = 1 ∨ sc = 0) ∧
        (sc = 1 ↔ ∃ w ∈ rec.manual_context.getD [],
          containsSub (toLowerList w.toList)
            (toLowerList (slice text (r0.start - 100)
              (min text.length (r0.stop + 100)))) = true) ∧
        (sv = 1 ∨ sv = 0) ∧
        (sv = 1 ↔ (rec.validator = none ∨
          ∃ v, rec.validator = some v ∧ v (slice text r0.start r0.stop) = true)) ∧
        r.score = pyRound (0.5 * r0.score + 0.3 * sc + 0.2 * sv) 3 := by
  unfold Presidio.analyze at hr
  by_cases hres : results.isEmpty = true
  · rw [if_pos (Or.inl hres)] at hr
    rw [List.isEmpty_iff.mp hres] at hr
    exact absurd hr (List.not_mem_nil r)
  · rw [if_neg (by simp [hent, hres])] at hr
    obtain ⟨r0, hr0, heq⟩ := List.mem_map.mp hr
    subst heq
    refine ⟨r0, hr0, rfl, rfl,
      (if Presidio.check_context_proximity rec text r0.start r0.stop then 1 else 0),
      (match rec.validator with
        | none => (1 : ℚ)
        | some v => if v (slice text r0.start r0.stop) then 1 else 0),
      (ctxScore_one_iff _).1, ?_,
      (valScore_one_iff rec.validator (slice text r0.start r0.stop)).1,
      (valScore_one_iff rec.validator (slice text r0.start r0.stop)).2, rfl⟩
    rw [(ctxScore_one_iff _).2, check_context_proximity_iff]

open Presidio in
/-- Witness for C2: the IBAN recognizer shape with one candidate match of
base score 0.6, a context hit and no validator gives final score 0.8. -/
theorem C2_weighted_scoring_witness :
    ("IBAN_MA" ∈ ["IBAN_MA"] ∧
      (⟨6, 11, 0.8⟩ : Presidio.RecogResult) ∈
        Presidio.analyze ⟨"IBAN_MA", some ["iban"], none⟩ "iban: MA123".toList
          ["IBAN_MA"] [⟨6, 11, 0.6⟩]) ∧
    ∃ r0 ∈ [(⟨6, 11, 0.6⟩ : Presidio.RecogResult)],
      (⟨6, 11, 0.8⟩ : Presidio.RecogResult).start = r0.start ∧
      (⟨6, 11, 0.8⟩ : Presidio.RecogResult).stop = r0.stop ∧
      ∃ sc sv : ℚ,
        (sc = 1 ∨ sc = 0) ∧
        (sc = 1 ↔ ∃ w ∈ ((⟨"IBAN_MA", some ["iban"], none⟩ :
            Presidio.Recognizer).manual_context).getD [],
          Taxonomie.containsSub (Taxonomie.toLowerList w.toList)
            (Taxonomie.toLowerList (Taxonomie.slice "iban: MA123".toList (r0.start - 100)
              (min "iban: MA123".toList.length (r0.stop + 100)))) = true) ∧
        (sv = 1 ∨ sv = 0) ∧
        (sv = 1 ↔ ((⟨"IBAN_MA", some ["iban"], none⟩ :
            Presidio.Recognizer).validator = none ∨
          ∃ v, (⟨"IBAN_MA", some ["iban"], none⟩ :
            Presidio.Recognizer).validator = some v ∧
            v (Taxonomie.slice "iban: MA123".toList r0.start r0.stop) = true)) ∧
        (⟨6, 11, 0.8⟩ : Presidio.RecogResult).score
          = pyRound (0.5 * r0.score + 0.3 * sc + 0.2 * sv) 3 :=
  ⟨⟨by decide, by decide⟩,
    C2_weighted_scoring ⟨"IBAN_MA", some ["iban"], none⟩ "iban: MA123".toList
      ["IBAN_MA"] [⟨6, 11, 0.6⟩] (by decide) ⟨6, 11, 0.8⟩ (by decide)⟩

open Cleaning in
/-- C6 counterexample: on the two-row frame `[[1, NaN], [1, 2]]` the first
auto-clean keeps both rows but mean-imputation makes them identical, so the
second run's duplicate removal deletes one — the second application does
not remove zero rows. -/
theorem C6_counterexample :
    (clean_dataframe [[some 1, none], [some 1, some 2]] autoConfig).length = 2 ∧
    (clean_dataframe (clean_dataframe [[some 1, none], [some 1, some 2]] autoConfig)
        autoConfig).length = 1 :=
  ⟨by decide, by decide⟩

open Cleaning in
/-- C6 (amended): the auto-clean pipeline is not idempotent — a second
application can remove further rows (imputation can merge rows into
duplicates, and IQR bounds recomputed on the narrowed frame can flag new
outliers) — but every step only deletes rows, so the second run's row count
never exceeds the first run's. -/
theorem C6_second_run_bound (df : Cleaning.DataFrame) :
    (clean_dataframe (clean_dataframe df autoConfig) autoConfig).length
      ≤ (clean_dataframe df autoConfig).length :=
  clean_dataframe_length_le _ _

/-- The logistic function `p ↦ 1 / (1 + exp(-p·5))` is monotone. -/
theorem sigmoid_mono {x y : ℝ} (h : x ≤ y) :
    1 / (1 + Real.exp (-x * 5)) ≤ 1 / (1 + Real.exp (-y * 5)) := by
  have h1 : Real.exp (-y * 5) ≤ Real.exp (-x * 5) := Real.exp_le_exp.mpr (by linarith)
  have h2 : 0 < 1 + Real.exp (-y * 5) := by positivity
  exact one_div_le_one_div_of_le h2 (by linarith)

/-- Position of a masking level in the ordering
`none < partial < full < encrypted`. -/
def levelRank : EthiMask.MaskingLevel → ℕ
  | .nomask => 0
  | .partial_ => 1
  | .full => 2
  | .encrypted => 3

/-- Position of a sensitivity label in `low < medium < high < critical`. -/
def sensRank (s : String) : ℕ :=
  if s = "low" then 0 else if s = "medium" then 1 else if s = "high" then 2 else 3

theorem levelOf_mono {p q : ℝ} (h : p ≤ q) :
    levelRank (EthiMask.levelOf p) ≤ levelRank (EthiMask.levelOf q) := by
  unfold EthiMask.levelOf
  split_ifs <;> simp [levelRank] <;> linarith

open EthiMask in
/-- C7: with the default weights `[0.35, -0.30, 0.20, 0.15]` and bias 0.4,
for fixed role/context/purpose, raising the sensitivity through
`low < medium < high < critical` never decreases the decided masking level
in the ordering `none < partial < full < encrypted`. -/
theorem C7_masking_monotonicity (role : EthiMask.UserRole) (context purpose : String)
    (s1 s2 : String) (h1 : s1 ∈ ["low", "medium", "high", "critical"])
    (h2 : s2 ∈ ["low", "medium", "high", "critical"])
    (hrank : sensRank s1 ≤ sensRank s2) :
    levelRank (decide_masking s1 role context purpose).1
      ≤ levelRank (decide_masking s2 role context purpose).1 := by
  have henc : sensitivity_encoding s1 ≤ sensitivity_encoding s2 := by
    fin_cases h1 <;> fin_cases h2 <;> revert hrank <;> decide
  have hsc : scoreOf s1 role context purpose ≤ scoreOf s2 role context purpose := by
    unfold scoreOf
    linarith
  have hscR : ((scoreOf s1 role context purpose : ℚ) : ℝ)
      ≤ ((scoreOf s2 role context purpose : ℚ) : ℝ) := by exact_mod_cast hsc
  exact levelOf_mono (sigmoid_mono hscR)

open EthiMask in
/-- Witness for C7 at `low ≤ critical` with the labeler role. -/
theorem C7_masking_monotonicity_witness :
    ("low" ∈ ["low", "medium", "high", "critical"] ∧
      "critical" ∈ ["low", "medium", "high", "critical"] ∧
      sensRank "low" ≤ sensRank "critical") ∧
    levelRank (decide_masking "low" .labeler "default" "general").1
      ≤ levelRank (decide_masking "critical" .labeler "default" "general").1 :=
  ⟨⟨by decide, by decide, by decide⟩,
    C7_masking_monotonicity .labeler "default" "general" "low" "critical"
      (by decide) (by decide) (by decide)⟩

open EthiMask in
/-- When no default policy matches, `get_policy` returns the constructed
full/suppression fallback (never `None`). -/
theorem get_policy_no_match (policies : List EthiMask.MaskingPolicy) (ent role : String)
    (h : ∀ p ∈ policies, ¬ ((p.entity_type = ent ∨ p.entity_type = "*") ∧ p.role = role)) :
    get_policy policies ent role = ⟨ent, role, .full, .suppression⟩ := by
  unfold get_policy
  have hf : policies.find? (fun p =>
      (p.entity_type == ent || p.entity_type == "*") && p.role == role) = none := by
    rw [List.find?_eq_none]
    intro p hp
    have hnp := h p hp
    simp only [Bool.and_eq_true, Bool.or_eq_true, beq_iff_eq, not_and]
    intro hor
    exact fun hrole => hnp ⟨hor, hrole⟩
  rw [hf]

open EthiMask in
/-- `mask` at level `full` with technique `suppression` reports technique
`"suppression"` (or `"none"` for a null value). -/
theorem mask_full_suppression (oracle : EthiMask.MaskerOracle) (value : Option String)
    (ent : String) :
    (mask oracle value ent .full (some .suppression)).2 = "suppression" ∨
    (mask oracle value ent .full (some .suppression)).2 = "none" := by
  unfold mask
  split
  · exact Or.inr rfl
  · exact Or.inl rfl

open EthiMask in
/-- The audit log of one masking step: unchanged, or extended with the
policy-derived entry. -/
theorem maskStep_audit (oracle : EthiMask.MaskerOracle)
    (decideFn : String → EthiMask.UserRole → String → String → EthiMask.MaskingLevel × ℚ)
    (config : EthiMask.MaskingConfig) (st : EthiMask.MaskResponse) (d : EthiMask.EDetection) :
    (maskStep oracle decideFn config st d).audit_log = st.audit_log ∨
    (maskStep oracle decideFn config st d).audit_log = st.audit_log ++ [{
      field := d.field
      entity_type := d.entity_type
      sensitivity := d.sensitivity_level
      masking_level := (get_policy DEFAULT_POLICIES d.entity_type config.role.value).level.value
      technique := (mask oracle ((lookupKey st.masked_data d.field).getD none) d.entity_type
        (get_policy DEFAULT_POLICIES d.entity_type config.role.value).level
        (some (get_policy DEFAULT_POLICIES d.entity_type config.role.value).technique)).2
      role := config.role.value }] := by
  unfold maskStep
  split
  · exact Or.inl rfl
  · exact Or.inr rfl

open EthiMask in
/-- C8 (amended): in the database-less `/mask` path, for every audit entry
whose `(entity_type, role)` matches no exact and no wildcard default
policy, the masking level actually applied is `full`, with technique
`suppression` (reported as `"none"` when the value is null); the perceptron
decision is computed but always overridden, because `get_policy` never
returns no policy. -/
theorem C8_policy_override (oracle : EthiMask.MaskerOracle)
    (decideFn : String → EthiMask.UserRole → String → String → EthiMask.MaskingLevel × ℚ)
    (data : EthiMask.DataRecord) (detections : List EthiMask.EDetection)
    (config : EthiMask.MaskingConfig) (e : EthiMask.AuditEntry)
    (he : e ∈ (mask_data oracle decideFn data detections config).audit_log)
    (hno : ∀ p ∈ EthiMask.DEFAULT_POLICIES,
      ¬ ((p.entity_type = e.entity_type ∨ p.entity_type = "*") ∧
          p.role = config.role.value)) :
    e.masking_level = "full" ∧
    (e.technique = "suppression" ∨ e.technique = "none") := by
  unfold mask_data at he
  suffices h : ∀ (dets : List EDetection) (st : MaskResponse),
      (∀ e2 ∈ st.audit_log,
        (∀ p ∈ DEFAULT_POLICIES,
          ¬ ((p.entity_type = e2.entity_type ∨ p.entity_type = "*") ∧
              p.role = config.role.value)) →
        e2.masking_level = "full" ∧
        (e2.technique = "suppression" ∨ e2.technique = "none")) →
      ∀ e2 ∈ (dets.foldl (maskStep oracle decideFn config) st).audit_log,
        (∀ p ∈ DEFAULT_POLICIES,
          ¬ ((p.entity_type = e2.entity_type ∨ p.entity_type = "*") ∧
              p.role = config.role.value)) →
        e2.masking_level = "full" ∧
        (e2.technique = "suppression" ∨ e2.technique = "none") by
    exact h detections { masked_data := data, techniques_used := [], audit_log := [] }
      (by intro e2 he2 _; exact absurd he2 (List.not_mem_nil e2)) e he hno
  intro dets
  induction dets with
  | nil => intro st hst; exact hst
  | cons d rest ih =>
    intro st hst
    simp only [List.foldl_cons]
    apply ih
    intro e2 he2 hno2
    rcases maskStep_audit oracle decideFn config st d with haud | haud
    · rw [haud] at he2
      exact hst e2 he2 hno2
    · rw [haud] at he2
      rcases List.mem_append.mp he2 with he2 | he2
      · exact hst e2 he2 hno2
      · have he2' := List.mem_singleton.mp he2
        subst he2'
        have hpol := get_policy_no_match DEFAULT_POLICIES d.entity_type config.role.value hno2
        constructor
        · show (get_policy DEFAULT_POLICIES d.entity_type config.role.value).level.value = "full"
          rw [hpol]
          rfl
        · show (mask oracle ((lookupKey st.masked_data d.field).getD none) d.entity_type
            (get_policy DEFAULT_POLICIES d.entity_type config.role.value).level
            (some (get_policy DEFAULT_POLICIES d.entity_type config.role.value).technique)).2
              = "suppression" ∨ _ = "none"
          rw [hpol]
          exact mask_full_suppression oracle _ d.entity_type

open EthiMask in
/-- Witness for C8 at a `salary`/`annotator` request: no default policy
matches and the audit entry reports level `full`, technique
`suppression`. -/
theorem C8_policy_override_witness :
    ((⟨"x", "salary", "low", "full", "suppression", "annotator"⟩ : EthiMask.AuditEntry) ∈
      (mask_data ⟨fun s _ => s, fun s => s, fun s => s, fun s => s⟩
        (fun _ _ _ _ => (.full, 0)) [("x", some "v")] [⟨"x", "salary", "low"⟩]
        ⟨.annotator, "default", "general"⟩).audit_log ∧
      (∀ p ∈ EthiMask.DEFAULT_POLICIES,
        ¬ ((p.entity_type = "salary" ∨ p.entity_type = "*") ∧ p.role = "annotator"))) ∧
    (("full" : String) = "full" ∧
      (("suppression" : String) = "suppression" ∨ ("suppression" : String) = "none")) :=
  ⟨⟨by decide, by decide⟩,
    C8_policy_override ⟨fun s _ => s, fun s => s, fun s => s, fun s => s⟩
      (fun _ _ _ _ => (.full, 0)) [("x", some "v")] [⟨"x", "salary", "low"⟩]
      ⟨.annotator, "default", "general"⟩
      ⟨"x", "salary", "low", "full", "suppression", "annotator"⟩
      (by decide) (by decide)⟩

open EthiMask in
/-- C8 counterexample: for the unmatched `salary`/`annotator` combination
the applied level recorded in the audit log is `full`, while the
perceptron's decision for the request is `encrypted` — the code never falls
back to the perceptron decision, contradicting the claim. -/
theorem C8_counterexample :
    (∀ p ∈ EthiMask.DEFAULT_POLICIES,
      ¬ ((p.entity_type = "salary" ∨ p.entity_type = "*") ∧ p.role = "annotator")) ∧
    (mask_data ⟨fun s _ => s, fun s => s, fun s => s, fun s => s⟩
        decide_masking [("x", some "v")] [⟨"x", "salary", "low"⟩]
        ⟨.annotator, "default", "general"⟩).audit_log
      = [⟨"x", "salary", "low", "full", "suppression", "annotator"⟩] ∧
    (decide_masking "low" .annotator "default" "general").1 = .encrypted ∧
    EthiMask.MaskingLevel.full ≠ .encrypted := by
  refine ⟨by decide, by decide, ?_, by decide⟩
  have hscore : scoreOf "low" .annotator "default" "general" = 0.465 := by decide
  show (decide_masking "low" .annotator "default" "general").1 = .encrypted
  unfold decide_masking
  dsimp only
  rw [hscore]
  have hcast : (((0.465 : ℚ) : ℝ)) = (0.465 : ℝ) := by norm_num
  rw [hcast]
  have he1 : (2.7182818283 : ℝ) < Real.exp 1 := Real.exp_one_gt_d9
  have he2 : (3 : ℝ) < Real.exp 2 := by
    rw [show (2 : ℝ) = 1 + 1 by norm_num, Real.exp_add]
    nlinarith
  have he3 : (3 : ℝ) < Real.exp 2.325 :=
    lt_of_lt_of_le he2 (Real.exp_le_exp.mpr (by norm_num))
  have he4 : Real.exp (-(0.465 : ℝ) * 5) = (Real.exp 2.325)⁻¹ := by
    rw [show -(0.465 : ℝ) * 5 = -2.325 by norm_num, Real.exp_neg]
  have he5 : Real.exp (-(0.465 : ℝ) * 5) ≤ 1 / 3 := by
    rw [he4]
    rw [show (1 : ℝ) / 3 = 3⁻¹ by norm_num]
    exact inv_anti₀ (by norm_num) (le_of_lt he3)
  have hepos : 0 < 1 + Real.exp (-(0.465 : ℝ) * 5) := by positivity
  have hp : (0.75 : ℝ) ≤ 1 / (1 + Real.exp (-(0.465 : ℝ) * 5)) := by
    have h43 : 1 + Real.exp (-(0.465 : ℝ) * 5) ≤ 4 / 3 := by linarith
    have := one_div_le_one_div_of_le hepos h43
    linarith [this]
  unfold levelOf
  rw [if_neg (by linarith), if_neg (by linarith), if_neg (by linarith)]

open EthiMask in
/-- `setKey` only rewrites values, never the key structure. -/
theorem setKey_map_fst (data : EthiMask.DataRecord) (k : String) (v : Option String) :
    (setKey data k v).map Prod.fst = data.map Prod.fst := by
  unfold setKey
  rw [List.map_map]
  apply List.map_congr_left
  intro p _
  show (if (p.1 == k) = true then (p.1, v) else p).1 = p.1
  split <;> rfl

open EthiMask in
/-- `lookupKey` on a cons whose head matches. -/
theorem lookupKey_cons_pos (a : String × Option String)
    (l : List (String × Option String)) (k : String) (ha : (a.1 == k) = true) :
    lookupKey (a :: l) k = some a.2 := by
  simp [lookupKey, List.find?, ha]

open EthiMask in
/-- `lookupKey` on a cons whose head does not match. -/
theorem lookupKey_cons_neg (a : String × Option String)
    (l : List (String × Option String)) (k : String) (ha : (a.1 == k) = false) :
    lookupKey (a :: l) k = lookupKey l k := by
  simp [lookupKey, List.find?, ha]

open EthiMask in
/-- `setKey` leaves lookups of other keys unchanged. -/
theorem lookupKey_setKey_of_ne (data : EthiMask.DataRecord) (k : String)
    (v : Option String) (k2 : String) (h : k2 ≠ k) :
    lookupKey (setKey data k v) k2 = lookupKey data k2 := by
  have hfst : ∀ p : String × Option String,
      (((if (p.1 == k) = true then (p.1, v) else p) : String × Option String)).1 = p.1 := by
    intro p
    split <;> rfl
  induction data with
  | nil => rfl
  | cons p rest ih =>
    have hcons : setKey (p :: rest) k v
        = (if (p.1 == k) = true then (p.1, v) else p) :: setKey rest k v := rfl
    rw [hcons]
    by_cases hk2 : ((p.1 == k2) = true)
    · have hhead : ((((if (p.1 == k) = true then (p.1, v) else p) :
          String × Option String)).1 == k2) = true := by
        rw [hfst p]
        exact hk2
      rw [lookupKey_cons_pos _ _ _ hhead, lookupKey_cons_pos _ _ _ hk2]
      have hp2 : p.1 = k2 := by simpa using hk2
      have hpk : ¬ ((p.1 == k) = true) := by
        simp only [beq_iff_eq, hp2]
        exact h
      rw [if_neg hpk]
    · have hk2f : (p.1 == k2) = false := by
        simp only [Bool.not_eq_true] at hk2
        exact hk2
      have hhead : ((((if (p.1 == k) = true then (p.1, v) else p) :
          String × Option String)).1 == k2) = false := by
        rw [hfst p]
        exact hk2f
      rw [lookupKey_cons_neg _ _ _ hhead, lookupKey_cons_neg _ _ _ hk2f]
      exact ih

open EthiMask in
/-- A key is absent exactly when its lookup is `none`. -/
theorem lookupKey_eq_none_iff (data : EthiMask.DataRecord) (k : String) :
    lookupKey data k = none ↔ k ∉ data.map Prod.fst := by
  unfold lookupKey
  rw [Option.map_eq_none', List.find?_eq_none]
  constructor
  · intro h hk
    rw [List.mem_map] at hk
    obtain ⟨p, hp, hpk⟩ := hk
    exact h p hp (by simp [hpk])
  · intro h p hp hpk
    exact h (List.mem_map.mpr ⟨p, hp, by simpa using hpk⟩)

open EthiMask in
/-- The masked-data invariants of the detection loop: the key structure is
preserved, and keys named by no processed detection keep their value. -/
theorem foldl_maskStep_frame (oracle : EthiMask.MaskerOracle)
    (decideFn : String → EthiMask.UserRole → String → String → EthiMask.MaskingLevel × ℚ)
    (config : EthiMask.MaskingConfig) :
    ∀ (dets : List EthiMask.EDetection) (st : EthiMask.MaskResponse),
      ((dets.foldl (maskStep oracle decideFn config) st).masked_data.map Prod.fst
        = st.masked_data.map Prod.fst) ∧
      (∀ k : String, (∀ d ∈ dets, d.field ≠ k) →
        lookupKey (dets.foldl (maskStep oracle decideFn config) st).masked_data k
          = lookupKey st.masked_data k) := by
  intro dets
  induction dets with
  | nil => exact fun st => ⟨rfl, fun k _ => rfl⟩
  | cons d rest ih =>
    intro st
    simp only [List.foldl_cons]
    have hstep_fst : (maskStep oracle decideFn config st d).masked_data.map Prod.fst
        = st.masked_data.map Prod.fst := by
      unfold maskStep
      split
      · rfl
      · exact setKey_map_fst _ _ _
    constructor
    · rw [(ih _).1, hstep_fst]
    · intro k hk
      have hdk : d.field ≠ k := hk d (by simp)
      rw [(ih _).2 k (fun d2 hd2 => hk d2 (by simp [hd2]))]
      unfold maskStep
      split
      · rfl
      · exact lookupKey_setKey_of_ne _ _ _ _ (fun hkk => hdk hkk.symm)

open EthiMask in
/-- C10 (frame property of `/mask`): the masked record has exactly the
input's keys; any key that is no detection's field keeps its input value;
and a key absent from the input stays absent — so only keys that are both
named by a detection and present in the record can change. -/
theorem C10_mask_frame (oracle : EthiMask.MaskerOracle)
    (decideFn : String → EthiMask.UserRole → String → String → EthiMask.MaskingLevel × ℚ)
    (data : EthiMask.DataRecord) (detections : List EthiMask.EDetection)
    (config : EthiMask.MaskingConfig) :
    ((mask_data oracle decideFn data detections config).masked_data.map Prod.fst
      = data.map Prod.fst) ∧
    (∀ k : String, (∀ d ∈ detections, d.field ≠ k) →
      lookupKey (mask_data oracle decideFn data detections config).masked_data k
        = lookupKey data k) ∧
    (∀ k : String, lookupKey data k = none →
      lookupKey (mask_data oracle decideFn data detections config).masked_data k = none) := by
  have h := foldl_maskStep_frame oracle decideFn config detections
    { masked_data := data, techniques_used := [], audit_log := [] }
  refine ⟨h.1, h.2, ?_⟩
  intro k hk
  rw [lookupKey_eq_none_iff] at hk ⊢
  unfold mask_data
  rw [h.1]
  exact hk

open EthiMask in
/-- Witness for C10: a record with two keys, one detection on the first;
the second key's value is untouched and an absent key stays absent. -/
theorem C10_mask_frame_witness :
    ((∀ d ∈ ([⟨"a", "cin", "high"⟩] : List EthiMask.EDetection), d.field ≠ "b") ∧
      lookupKey ([("a", some "1"), ("b", some "2")] : EthiMask.DataRecord) "zz" = none) ∧
    (lookupKey (mask_data ⟨fun s _ => s, fun s => s, fun s => s, fun s => s⟩
        (fun _ _ _ _ => (.full, 0)) [("a", some "1"), ("b", some "2")]
        [⟨"a", "cin", "high"⟩] ⟨.labeler, "default", "general"⟩).masked_data "b"
      = lookupKey ([("a", some "1"), ("b", some "2")] : EthiMask.DataRecord) "b" ∧
     lookupKey (mask_data ⟨fun s _ => s, fun s => s, fun s => s, fun s => s⟩
        (fun _ _ _ _ => (.full, 0)) [("a", some "1"), ("b", some "2")]
        [⟨"a", "cin", "high"⟩] ⟨.labeler, "default", "general"⟩).masked_data "zz" = none) :=
  ⟨⟨by decide, by decide⟩,
    (C10_mask_frame ⟨fun s _ => s, fun s => s, fun s => s, fun s => s⟩
        (fun _ _ _ _ => (.full, 0)) [("a", some "1"), ("b", some "2")]
        [⟨"a", "cin", "high"⟩] ⟨.labeler, "default", "general"⟩).2.1 "b" (by decide),
    (C10_mask_frame ⟨fun s _ => s, fun s => s, fun s => s, fun s => s⟩
        (fun _ _ _ _ => (.full, 0)) [("a", some "1"), ("b", some "2")]
        [⟨"a", "cin", "high"⟩] ⟨.labeler, "default", "general"⟩).2.2 "zz" (by decide)⟩

end Claims

end DataGov

